import Mathlib

/-!
Verification of latch-eval-tools against its natural-language specification.

The Python sources under src/src/latch_eval_tools are shallowly embedded:
CPython floats are modelled by `PyFloat` (exact rationals plus the positive
infinity the grader code produces via float('inf')), JSON-like Python values
by `PyVal`, dicts by association lists with Python's update-or-append
assignment, and code that can raise an uncaught exception returns
`Except String _` where the error string names the Python exception class.
Wall-clock timestamps and uuid fields of trajectory entries are omitted:
they are IO nondeterminism that no statement here depends on.
-/

/-- Model of a CPython float as used by the graders: an exact rational or
positive infinity (the graders create `float('inf')` for unbounded errors).
Negative infinity and NaN are not representable here; the operations below
are only ever applied where the Python code cannot produce them. -/
inductive PyFloat where
  | fin (q : ℚ)
  | inf
deriving DecidableEq, Repr

namespace PyFloat

/-- Python `<=` on floats. -/
def ble : PyFloat → PyFloat → Bool
  | .fin a, .fin b => decide (a ≤ b)
  | .fin _, .inf => true
  | .inf, .fin _ => false
  | .inf, .inf => true

/-- Python `<` on floats. -/
def blt (a b : PyFloat) : Bool := !(b.ble a)

/-- Python `+` on floats (the inf cases follow IEEE, as CPython does). -/
def add : PyFloat → PyFloat → PyFloat
  | .fin a, .fin b => .fin (a + b)
  | _, _ => .inf

/-- Python `-` on floats.  `fin - inf` would be `-inf` in CPython; that case is
unreachable in this development (no config value is infinite) and is mapped to
`inf` as a junk value. -/
def sub : PyFloat → PyFloat → PyFloat
  | .fin a, .fin b => .fin (a - b)
  | _, _ => .inf

/-- Python `abs` on floats. -/
def pabs : PyFloat → PyFloat
  | .fin a => .fin (if a < 0 then -a else a)
  | .inf => .inf

/-- Python `/` on floats.  Division by a finite zero raises in CPython; every
call site in the embedded code guards the denominator away from zero, so the
rational convention `q / 0 = 0` is never observed.  `inf / x` is likewise
unreachable here and mapped to `inf`. -/
def div : PyFloat → PyFloat → PyFloat
  | .fin a, .fin b => .fin (a / b)
  | .fin _, .inf => .fin 0
  | .inf, _ => .inf

end PyFloat

namespace BinaryGrader

/-- graders/base.py, `BinaryGrader.score_with_tolerance` (lines 36-44). -/
def score_with_tolerance (error tolerance : PyFloat) : PyFloat :=
  if error.ble (.fin 0) then .fin 1
  else if (PyFloat.fin 0).blt tolerance then
    if error.ble tolerance then .fin 1
    else tolerance.div error
  else (PyFloat.fin 1).div ((PyFloat.fin 1).add error)

/-- graders/base.py, `BinaryGrader.clamp_score` (lines 32-34):
`max(0.0, min(1.0, float(score)))`, written with explicit conditionals. -/
def clamp_score (score : PyFloat) : ℚ :=
  let m : ℚ := match score with
    | .fin q => if q ≤ 1 then q else 1
    | .inf => 1
  if m ≤ 0 then 0 else m

end BinaryGrader

/-- The rational value of `score_with_tolerance` on finite arguments
(helper for stating and proving claim C1). -/
def scoreQ (e v : ℚ) : ℚ :=
  if e ≤ 0 then 1
  else if 0 < v then (if e ≤ v then 1 else v / e)
  else 1 / (1 + e)

theorem score_with_tolerance_fin (e v : ℚ) :
    BinaryGrader.score_with_tolerance (.fin e) (.fin v) = .fin (scoreQ e v) := by
  unfold BinaryGrader.score_with_tolerance scoreQ
  by_cases h1 : e ≤ 0
  · simp [PyFloat.ble, h1]
  · by_cases h2 : 0 < v
    · by_cases h3 : e ≤ v <;>
        simp [PyFloat.ble, PyFloat.blt, PyFloat.div, h1, h2, h3, not_le.mpr h2]
    · simp [PyFloat.ble, PyFloat.blt, PyFloat.div, PyFloat.add, h1, h2, not_lt.mp h2]

theorem scoreQ_nonneg (e v : ℚ) (hv : 0 ≤ v) : 0 ≤ scoreQ e v := by
  unfold scoreQ
  by_cases h1 : e ≤ 0
  · simp [h1]
  · push_neg at h1
    rw [if_neg (not_le.mpr h1)]
    by_cases h2 : 0 < v
    · rw [if_pos h2]
      by_cases h3 : e ≤ v
      · simp [h3]
      · rw [if_neg h3]
        exact div_nonneg hv h1.le
    · rw [if_neg h2]
      have : (0:ℚ) < 1 + e := by linarith
      positivity

theorem scoreQ_le_one (e v : ℚ) (hv : 0 ≤ v) : scoreQ e v ≤ 1 := by
  unfold scoreQ
  by_cases h1 : e ≤ 0
  · simp [h1]
  · push_neg at h1
    rw [if_neg (not_le.mpr h1)]
    by_cases h2 : 0 < v
    · rw [if_pos h2]
      by_cases h3 : e ≤ v
      · simp [h3]
      · push_neg at h3
        rw [if_neg (not_le.mpr h3), div_le_one h1]
        exact h3.le
    · rw [if_neg h2, div_le_one (by linarith)]
      linarith

theorem scoreQ_antitone (v e₁ e₂ : ℚ) (hv : 0 ≤ v) (he₁ : 0 ≤ e₁) (h : e₁ ≤ e₂) :
    scoreQ e₂ v ≤ scoreQ e₁ v := by
  unfold scoreQ
  by_cases h1 : e₂ ≤ 0
  · have he₁0 : e₁ ≤ 0 := le_trans h h1
    simp [h1, he₁0]
  · push_neg at h1
    by_cases h2 : 0 < v
    · by_cases h3 : e₂ ≤ v
      · have h3' : e₁ ≤ v := le_trans h h3
        by_cases h4 : e₁ ≤ 0 <;> simp [not_le.mpr h1, h2, h3, h3', h4]
      · push_neg at h3
        simp only [not_le.mpr h1, if_false, h2, if_true, not_le.mpr h3]
        by_cases h4 : e₁ ≤ 0
        · simp only [h4, if_true]
          rw [div_le_one h1]; linarith
        · push_neg at h4
          simp only [not_le.mpr h4, if_false]
          by_cases h5 : e₁ ≤ v
          · simp only [h5, if_true]
            rw [div_le_one h1]; linarith
          · push_neg at h5
            simp only [not_le.mpr h5, if_false]
            gcongr
    · by_cases h4 : e₁ ≤ 0
      · simp only [h1.not_le, if_false, h2, if_true, h4]
        rw [div_le_one (by linarith)]; linarith
      · push_neg at h4
        simp only [h1.not_le, if_false, h2, if_true, h4.not_le]
        gcongr

/-- Claim C1: for every error e ≥ 0 and tolerance v ≥ 0, `score_with_tolerance`
returns 1.0 when e ≤ v, otherwise v/e when v > 0 and 1/(1+e) when v = 0; the
result is monotonically non-increasing in the error for a fixed tolerance and
always lies in [0,1]. -/
theorem c1_falloff_score (e v e₁ e₂ : ℚ) (he : 0 ≤ e) (hv : 0 ≤ v)
    (he₁ : 0 ≤ e₁) (h₁₂ : e₁ ≤ e₂) :
    (e ≤ v → BinaryGrader.score_with_tolerance (.fin e) (.fin v) = .fin 1) ∧
    (v < e → 0 < v →
      BinaryGrader.score_with_tolerance (.fin e) (.fin v) = .fin (v / e)) ∧
    (v < e → v = 0 →
      BinaryGrader.score_with_tolerance (.fin e) (.fin v) = .fin (1 / (1 + e))) ∧
    ((BinaryGrader.score_with_tolerance (.fin e₂) (.fin v)).ble
      (BinaryGrader.score_with_tolerance (.fin e₁) (.fin v)) = true) ∧
    ((PyFloat.fin 0).ble (BinaryGrader.score_with_tolerance (.fin e) (.fin v)) = true) ∧
    ((BinaryGrader.score_with_tolerance (.fin e) (.fin v)).ble (.fin 1) = true) := by
  rw [score_with_tolerance_fin, score_with_tolerance_fin, score_with_tolerance_fin]
  refine ⟨?_, ?_, ?_, ?_, ?_, ?_⟩
  · intro hev
    unfold scoreQ
    by_cases h1 : e ≤ 0
    · simp [h1]
    · push_neg at h1
      have h2 : 0 < v := lt_of_lt_of_le h1 hev
      simp [not_le.mpr h1, h2, hev]
  · intro hve h0v
    unfold scoreQ
    have h1 : ¬ e ≤ 0 := not_le.mpr (lt_trans h0v hve)
    simp [h1, h0v, not_le.mpr hve]
  · intro hve hv0
    unfold scoreQ
    subst hv0
    simp [not_le.mpr hve]
  · simp only [PyFloat.ble, decide_eq_true_eq]
    exact scoreQ_antitone v e₁ e₂ hv he₁ h₁₂
  · simp only [PyFloat.ble, decide_eq_true_eq]
    exact scoreQ_nonneg e v hv
  · simp only [PyFloat.ble, decide_eq_true_eq]
    exact scoreQ_le_one e v hv

/-- Witness for C1 at error 3, tolerance 1 (and errors 2 ≤ 5 for monotonicity):
the falloff value is 1/3. -/
theorem c1_falloff_score_witness :
    BinaryGrader.score_with_tolerance (.fin 3) (.fin 1) = .fin (1 / 3) := by
  have h := c1_falloff_score 3 1 2 5 (by norm_num) (by norm_num) (by norm_num) (by norm_num)
  exact h.2.1 (by norm_num) (by norm_num)

/-! ## Python values and dictionaries -/

/-- Model of the JSON-like Python values the graders and the recorder
manipulate.  `vnum` carries a `PyFloat` so that the `float('inf')` values the
numeric grader stores in its metrics are representable.  Python `bool` is kept
separate from numbers because the grader code dispatches on `isinstance(x, bool)`
before treating it as an int. -/
inductive PyVal where
  | vnone
  | vbool (b : Bool)
  | vnum (x : PyFloat)
  | vstr (s : String)
  | vlist (xs : List PyVal)
  | vdict (d : List (String × PyVal))
deriving Repr

abbrev PyDict := List (String × PyVal)

/-- Python `d.get(k)` (first binding; Python dicts carry unique keys). -/
def pyGet : PyDict → String → Option PyVal
  | [], _ => none
  | kv :: rest, k => if kv.1 = k then some kv.2 else pyGet rest k

/-- Python `d.get(k, default)`. -/
def pyGetD (d : PyDict) (k : String) (dflt : PyVal) : PyVal :=
  (pyGet d k).getD dflt

/-- Python `k in d` on a dict. -/
def pyContains (d : PyDict) (k : String) : Bool :=
  (pyGet d k).isSome

/-- Python `d[k] = v`: update in place when the key exists, append otherwise. -/
def pySet (d : PyDict) (k : String) (v : PyVal) : PyDict :=
  if pyContains d k then d.map (fun kv => if kv.1 == k then (k, v) else kv)
  else d ++ [(k, v)]

/-- Python `x.get(key, default)` on a value that is expected to be a dict:
raises AttributeError otherwise. -/
def asDictE : PyVal → Except String PyDict
  | .vdict d => .ok d
  | _ => .error "AttributeError"

/-- Computation lemmas for the `Except` monad (simp-evaluation of the
embedded code). -/
@[simp] theorem except_bind_ok {ε α β : Type} (a : α) (f : α → Except ε β) :
    (Except.ok a : Except ε α) >>= f = f a := rfl

@[simp] theorem except_bind_error {ε α β : Type} (e : ε) (f : α → Except ε β) :
    (Except.error e : Except ε α) >>= f = .error e := rfl

@[simp] theorem except_map_ok {ε α β : Type} (a : α) (f : α → β) :
    (Except.ok a : Except ε α).map f = .ok (f a) := rfl

@[simp] theorem except_map_error {ε α β : Type} (e : ε) (f : α → β) :
    (Except.error e : Except ε α).map f = .error e := rfl

@[simp] theorem except_pure_eq {ε α : Type} (a : α) :
    (pure a : Except ε α) = .ok a := rfl

/-! ### Character-list implementations of the Python string operations

Lean's own `String.contains`/`trim`/`splitOn` are byte-position loops that the
kernel cannot reduce, so the Python string operations are modelled directly on
the character list of the string. -/

/-- Python `c in s` for a one-character needle (covers `"." in key`). -/
def strContainsChar (s : String) (c : Char) : Bool := s.data.contains c

/-- Split a character list at every occurrence of a separator character. -/
def splitChar (c : Char) : List Char → List (List Char)
  | [] => [[]]
  | x :: xs =>
    if x = c then [] :: splitChar c xs
    else match splitChar c xs with
      | [] => [[x]]
      | g :: gs => (x :: g) :: gs

/-- Python `s.split(sep)` for a one-character separator. -/
def strSplitOnChar (s : String) (c : Char) : List String :=
  (splitChar c s.data).map String.mk

/-- The whitespace class of Python `str.strip()`. -/
def isPyWhitespace (ch : Char) : Bool :=
  ch = ' ' || ch = '\t' || ch = '\n' || ch = '\r' || ch = '\x0b' || ch = '\x0c'

/-- Python `s.strip()`. -/
def strTrim (s : String) : String :=
  String.mk (((s.data.dropWhile isPyWhitespace).reverse.dropWhile isPyWhitespace).reverse)

/-- ASCII uppercase of one character (CPython uppercases full Unicode; the
eval data is ASCII). -/
def upperChar (ch : Char) : Char :=
  if 'a' ≤ ch ∧ ch ≤ 'z' then Char.ofNat (ch.toNat - 32) else ch

/-- Python `s.upper()` on ASCII data. -/
def strUpper (s : String) : String := String.mk (s.data.map upperChar)

/-- Python `needle in haystack` substring test. -/
def listContainsSublist (needle : List Char) : List Char → Bool
  | [] => needle.isEmpty
  | x :: xs => needle.isPrefixOf (x :: xs) || listContainsSublist needle xs

/-- Decimal digit run to a number (the digits were checked beforehand). -/
def digitsVal : List Char → Nat → Nat
  | [], acc => acc
  | c :: cs, acc => digitsVal cs (acc * 10 + (c.toNat - 48))

/-- Python `key in x` for the container kinds the grader code can meet;
membership on a non-container raises TypeError. -/
def pyInOp (key : String) : PyVal → Except String Bool
  | .vdict d => .ok (pyContains d key)
  | .vstr s => .ok (listContainsSublist key.data s.data)
  | .vlist xs => .ok (xs.any (fun v => match v with | .vstr t => t == key | _ => false))
  | _ => .error "TypeError"

/-- Coercion of a value to a number as Python's arithmetic does it:
numbers stand for themselves, bools for 0/1, anything else raises TypeError
(`none` here). -/
def asNumF : PyVal → Option PyFloat
  | .vnum x => some x
  | .vbool b => some (.fin (if b then 1 else 0))
  | _ => none

/-- Python `x == 0` (only used where the numeric grader tests
`expected_value != 0`; cross-type comparison is False, never an error). -/
def pyIsZero : PyVal → Bool
  | .vnum (.fin q) => decide (q = 0)
  | .vbool b => !b
  | _ => false

/-- `type(x).__name__` as the numeric grader interpolates it.  Ints and
floats are merged in this model; the name is chosen by denominator.  No
theorem depends on these strings. -/
def pyTypeName : PyVal → String
  | .vnone => "NoneType"
  | .vbool _ => "bool"
  | .vnum (.fin q) => if q.den = 1 then "int" else "float"
  | .vnum .inf => "float"
  | .vstr _ => "str"
  | .vlist _ => "list"
  | .vdict _ => "dict"

/-- Decimal fixed-point rendering of a rational, modelling the f-string
formatting (`:.2f`, `:.3f`, ...) of the report strings.  Ties round away
from zero here rather than CPython's half-even on binary floats; no theorem
inspects a digit this could change. -/
def fmtFixed (q : ℚ) (prec : Nat) : String :=
  let scaled : ℤ := Int.floor (|q| * (10:ℚ)^prec + 1/2)
  let n : Nat := scaled.natAbs
  let base : Nat := 10^prec
  let ip := toString (n / base)
  let fpDigits := toString (n % base)
  let fp := String.mk (List.replicate (prec - fpDigits.length) '0') ++ fpDigits
  let sign := if q < 0 then "-" else ""
  if prec = 0 then sign ++ ip else sign ++ ip ++ "." ++ fp

mutual
/-- Python `str(x)`, approximated: integral rationals print like ints, other
rationals in fixed notation (CPython prints shortest-roundtrip float digits);
containers loosely follow repr.  Only report strings use this. -/
def pyStr : PyVal → String
  | .vnone => "None"
  | .vbool b => if b then "True" else "False"
  | .vnum (.fin q) => if q.den = 1 then toString q.num else fmtFixed q 6
  | .vnum .inf => "inf"
  | .vstr s => s
  | .vlist xs => "[" ++ String.intercalate ", " (pyStrList xs) ++ "]"
  | .vdict d => "\x7b" ++ String.intercalate ", " (pyStrDict d) ++ "\x7d"

def pyStrList : List PyVal → List String
  | [] => []
  | x :: xs => pyStr x :: pyStrList xs

def pyStrDict : List (String × PyVal) → List String
  | [] => []
  | kv :: xs => ("\x27" ++ kv.1 ++ "\x27: " ++ pyStr kv.2) :: pyStrDict xs
end

/-- Formatting of a stored metric value with a fixed-point spec (`:.3f` and
friends); formatting Python's `inf` float prints "inf". -/
def fmtVal (v : PyVal) (prec : Nat) : String :=
  match v with
  | .vnum (.fin q) => fmtFixed q prec
  | .vnum .inf => "inf"
  | .vbool b => if b then fmtFixed 1 prec else fmtFixed 0 prec
  | w => pyStr w

/-- Models CPython `float(s)` on the plain decimal numerals the graders
receive (optional sign, digits, optional fractional part).  Exponent
notation and named floats are rejected; no eval case uses them. -/
def pyParseFloat (s : String) : Option ℚ :=
  let t := (strTrim s).data
  let (sign, body) : ℚ × List Char :=
    match t with
    | '-' :: rest => (-1, rest)
    | '+' :: rest => (1, rest)
    | l => (1, l)
  match splitChar '.' body with
  | [ip] =>
    if ip ≠ [] ∧ ip.all Char.isDigit then some (sign * (digitsVal ip 0 : ℚ))
    else none
  | [ip, fp] =>
    if (ip ≠ [] ∨ fp ≠ []) ∧ ip.all Char.isDigit ∧ fp.all Char.isDigit then
      some (sign * ((digitsVal ip 0 : ℚ) + (digitsVal fp 0 : ℚ) / (10:ℚ)^fp.length))
    else none
  | _ => none

/-! ## graders/base.py: result record and nested lookup -/

/-- graders/base.py `GraderResult` dataclass; `score` defaults to 0.0. -/
structure GraderResult where
  passed : Bool
  metrics : PyDict
  reasoning : String
  agent_answer : Option PyDict
  score : ℚ := 0
deriving Repr

/-- graders/base.py `get_nested_value` (lines 13-22): dotted-path lookup.
Returns the Python pair `(value-or-None, found)`. -/
def get_nested_value (obj : PyDict) (key : String) : PyVal × Bool :=
  if !strContainsChar key '.' then (pyGetD obj key .vnone, pyContains obj key)
  else walk (PyVal.vdict obj) (strSplitOnChar key '.')
where
  walk : PyVal → List String → PyVal × Bool
  | current, [] => (current, true)
  | current, part :: rest =>
    match current with
    | .vdict d =>
      if pyContains d part then walk (pyGetD d part .vnone) rest
      else (.vnone, false)
    | _ => (.vnone, false)

/-! ## graders/multiple_choice.py -/

namespace MultipleChoiceGrader

/-- Python `s.strip().upper()` (ASCII case map; the eval data is ASCII). -/
def normChoice (s : String) : String := strUpper (strTrim s)

/-- `a.strip().upper()` on a list element: AttributeError on a non-string. -/
def stripUpperVal : PyVal → Except String String
  | .vstr s => .ok (normChoice s)
  | _ => .error "AttributeError"

/-- `[a.strip().upper() for a in xs]`. -/
def stripUpperAll : List PyVal → Except String (List String)
  | [] => .ok []
  | v :: vs => do
    let s ← stripUpperVal v
    let rest ← stripUpperAll vs
    .ok (s :: rest)

/-- multiple_choice.py lines 6-9: resolve the accepted answers. -/
def correctAnswersOf (config : PyDict) : Except String (List String) :=
  if pyContains config "correct_answers" then
    match pyGetD config "correct_answers" .vnone with
    | .vlist xs => stripUpperAll xs
    | .vstr s => .ok (s.data.map (fun c => normChoice (String.mk [c])))
    | _ => .error "TypeError"
  else
    (stripUpperVal (pyGetD config "correct_answer" (.vstr ""))).map (fun s => [s])

/-- Python `str(display_correct)` in the FAIL reasoning line. -/
def displayCorrect (cs : List String) : String :=
  match cs with
  | [c] => c
  | _ => "[" ++ String.intercalate ", " (cs.map (fun s => "\x27" ++ s ++ "\x27")) ++ "]"

/-- graders/multiple_choice.py `MultipleChoiceGrader.evaluate_answer`
(lines 5-41). -/
def evaluate_answer (agent_answer config : PyDict) : Except String GraderResult := do
  let correct_answers ← correctAnswersOf config
  if !pyContains agent_answer "answer" then
    return { passed := false
             metrics := [("score", .vnum (.fin 0))]
             reasoning := "Agent answer missing required field: answer"
             agent_answer := some agent_answer
             score := 0 }
  let agent_choice := normChoice (pyStr (pyGetD agent_answer "answer" .vnone))
  let passed := correct_answers.contains agent_choice
  let metrics : PyDict :=
    [("correct_answers", .vlist (correct_answers.map .vstr)),
     ("agent_answer", .vstr agent_choice),
     ("score", .vnum (.fin (if passed then 1 else 0)))]
  let reasoning :=
    if passed then
      "Multiple Choice: PASS\n\n  + Agent answered: " ++ agent_choice ++ " (correct)"
    else
      "Multiple Choice: FAIL\n\n  x Agent answered: " ++ agent_choice ++
        "\n    Correct answer(s): " ++ displayCorrect correct_answers
  return { passed := passed, metrics := metrics, reasoning := reasoning,
           agent_answer := some agent_answer,
           score := if passed then 1 else 0 }

end MultipleChoiceGrader

/-! ## graders/label_set.py -/

namespace LabelSetJaccardGrader

/-- Keep-first deduplication: the model of a Python `set` of strings is the
list of its distinct elements in first-occurrence order (counts, membership and
sorted renderings — all the grader observes — are order-independent). -/
def dedupFirst : List String → List String
  | [] => []
  | x :: xs => x :: (dedupFirst xs).filter (fun y => y ≠ x)

/-- Python `a & b` on sets-as-dedup-lists. -/
def setInter (a b : List String) : List String := a.filter (fun x => b.contains x)

/-- Python `a | b` on sets-as-dedup-lists. -/
def setUnion (a b : List String) : List String :=
  a ++ b.filter (fun x => !a.contains x)

/-- Python `a - b` on sets-as-dedup-lists. -/
def setDiff (a b : List String) : List String := a.filter (fun x => !b.contains x)

/-- Python `set(x)` for the label collections the grader receives: a list of
strings (or a string, which Python iterates by character; or a dict, which
iterates keys).  Sets of non-string hashables are not needed by any eval
config and raise here. -/
def toLabelList : PyVal → Except String (List String)
  | .vlist xs => (strList xs).map dedupFirst
  | .vstr s => .ok (dedupFirst (s.data.map (fun c => String.mk [c])))
  | .vdict d => .ok (dedupFirst (d.map (fun kv => kv.1)))
  | _ => .error "TypeError"
where
  strList : List PyVal → Except String (List String)
  | [] => .ok []
  | .vstr s :: vs => (strList vs).map (fun rest => s :: rest)
  | _ :: _ => .error "TypeError"

/-- Python `jaccard_index >= pass_threshold` where the threshold came out of
the config: TypeError on a non-number. -/
def geThreshold (j : ℚ) : PyVal → Except String Bool
  | .vnum (.fin q) => .ok (decide (q ≤ j))
  | .vnum .inf => .ok false
  | .vbool b => .ok (decide ((if b then (1:ℚ) else 0) ≤ j))
  | _ => .error "TypeError"

/-- The `|intersection| / |union|` index of label_set.py line 24 (0.0 on two
empty sets); the arguments are dedup-list sets. -/
def jaccardQ (gt pred : List String) : ℚ :=
  let interCard := (setInter gt pred).length
  let uniCard := (setUnion gt pred).length
  if 0 < uniCard then (interCard : ℚ) / (uniCard : ℚ) else 0

/-- `sorted(list(s))` on a set-as-dedup-list. -/
def sortedLabels (s : List String) : List String := s.insertionSort (· ≤ ·)

/-- The reasoning block for one label group (label_set.py lines 47-68). -/
def groupLines (mark : String) (labels : List String) : List String :=
  if labels.length ≠ 0 then (sortedLabels labels).map (fun l => "  " ++ mark ++ " " ++ l)
  else ["  None"]

/-- The `answer_field` config value as a dict key: only a string key can be
found in the string-keyed agent-answer dict. -/
def fieldKeyOf : PyVal → Option String
  | .vstr s => some s
  | _ => none

/-- `answer_field in agent_answer` (label_set.py line 14). -/
def presentIn (agent_answer : PyDict) : Option String → Bool
  | some s => pyContains agent_answer s
  | none => false

/-- The body of label_set.py lines 14-75 once the field-presence test has been
evaluated (staged so the test reaches this function as an argument). -/
def gradeLabels (agent_answer : PyDict) (ground_truth_labels : List String)
    (scoring : PyDict) (answer_field : PyVal) (fieldKey : Option String) :
    Bool → Except String GraderResult
  | false =>
    .ok { passed := false
          metrics := []
          reasoning := "Agent answer missing required field: " ++ pyStr answer_field
          agent_answer := some agent_answer
          score := 0 }
  | true => do
    let pass_threshold := pyGetD scoring "pass_threshold" (.vnum (.fin (9/10)))
    let fkey := fieldKey.getD ""
    let predicted_labels ← toLabelList (pyGetD agent_answer fkey .vnone)
    let jaccard_index := jaccardQ ground_truth_labels predicted_labels
    let passed ← geThreshold jaccard_index pass_threshold
    let true_positives := setInter ground_truth_labels predicted_labels
    let false_positives := setDiff predicted_labels ground_truth_labels
    let false_negatives := setDiff ground_truth_labels predicted_labels
    let metrics : PyDict :=
      [("jaccard_index", .vnum (.fin jaccard_index)),
       ("pass_threshold", pass_threshold),
       ("answer_field", .vstr fkey),
       ("true_positives", .vlist ((sortedLabels true_positives).map .vstr)),
       ("false_positives", .vlist ((sortedLabels false_positives).map .vstr)),
       ("false_negatives", .vlist ((sortedLabels false_negatives).map .vstr)),
       ("predicted_count", .vnum (.fin (predicted_labels.length : ℚ))),
       ("ground_truth_count", .vnum (.fin (ground_truth_labels.length : ℚ)))]
    let lines : List String :=
      ["Label Set Comparison: " ++ (if passed then "PASS" else "FAIL"),
       "",
       "  " ++ (if passed then "+" else "x") ++ " Jaccard Index: " ++ fmtFixed jaccard_index 3 ++
         " (threshold: " ++ fmtVal pass_threshold 3 ++ ")",
       "",
       "Correct Labels (" ++ toString true_positives.length ++ "):"]
      ++ groupLines "+" true_positives
      ++ ["", "Missing Labels (" ++ toString false_negatives.length ++ "):"]
      ++ groupLines "-" false_negatives
      ++ ["", "Extra Labels (" ++ toString false_positives.length ++ "):"]
      ++ groupLines "?" false_positives
    return { passed := passed, metrics := metrics,
             reasoning := String.intercalate "\n" lines,
             agent_answer := some agent_answer,
             score := 0 }

/-- graders/label_set.py `LabelSetJaccardGrader.evaluate_answer` (lines 5-75).
The `GraderResult` is built WITHOUT a score argument, so the dataclass
default 0.0 applies — the Jaccard index only reaches the metrics map. -/
def evaluate_answer (agent_answer config : PyDict) : Except String GraderResult := do
  let ground_truth_labels ← toLabelList (pyGetD config "ground_truth_labels" (.vlist []))
  let scoring ← asDictE (pyGetD config "scoring" (.vdict []))
  let answer_field := pyGetD config "answer_field" (.vstr "cell_types_predicted")
  gradeLabels agent_answer ground_truth_labels scoring answer_field
    (fieldKeyOf answer_field) (presentIn agent_answer (fieldKeyOf answer_field))

end LabelSetJaccardGrader

/-! ## graders/numeric.py -/

namespace NumericToleranceGrader

/-- The per-field accumulator of the loop in numeric.py lines 9-12. -/
structure FieldState where
  metrics : PyDict
  all_pass : Bool
  failures : List String
  field_scores : List ℚ
deriving Repr

/-- numeric.py lines 16-21: the field is absent from the answer. -/
def missingField (st : FieldState) (field : String) : FieldState :=
  { metrics := pySet st.metrics (field ++ "_score") (.vnum (.fin 0))
    all_pass := false
    failures := st.failures ++ ["Missing field: " ++ field]
    field_scores := st.field_scores ++ [0] }

/-- numeric.py lines 23-31: the value is a string float() rejects. -/
def cannotParse (st : FieldState) (field : String) (actual : PyVal) : FieldState :=
  { metrics := pySet st.metrics (field ++ "_score") (.vnum (.fin 0))
    all_pass := false
    failures := st.failures ++
      [field ++ ": cannot parse \x27" ++ pyStr actual ++ "\x27 as number"]
    field_scores := st.field_scores ++ [0] }

/-- The common metric updates of the null-value and TypeError branches
(numeric.py lines 36-45 and 92-101). -/
def failMetrics (m : PyDict) (field : String) (actual expected : PyVal) : PyDict :=
  pySet (pySet (pySet (pySet (pySet m
    (field ++ "_actual") actual)
    (field ++ "_expected") expected)
    (field ++ "_error") (.vnum .inf))
    (field ++ "_pass") (.vbool false))
    (field ++ "_score") (.vnum (.fin 0))

/-- numeric.py lines 36-45: the looked-up value is None. -/
def noneValue (st : FieldState) (field : String) (expected : PyVal) : FieldState :=
  { metrics := failMetrics st.metrics field .vnone expected
    all_pass := false
    failures := st.failures ++ [field ++ ": got null/None value"]
    field_scores := st.field_scores ++ [0] }

/-- numeric.py lines 92-101: the tolerance arithmetic raised TypeError. -/
def invalidType (st : FieldState) (field : String) (actual expected : PyVal) : FieldState :=
  { metrics := failMetrics st.metrics field actual expected
    all_pass := false
    failures := st.failures ++
      [field ++ ": invalid type " ++ pyTypeName actual ++ ", expected numeric"]
    field_scores := st.field_scores ++ [0] }

/-- The try-block of numeric.py lines 56-91: yields
(within_tolerance, error, field_score), or `none` when the Python arithmetic
would raise the TypeError the except-branch catches. -/
def tryBlock (tolerance_type : PyVal) (has_asymmetric : Bool)
    (tolerance_value tolerance_lower tolerance_upper actual expected : PyVal) :
    Option (Bool × PyFloat × PyFloat) :=
  match tolerance_type with
  | .vstr "absolute" =>
    if has_asymmetric then do
      let a ← asNumF actual
      let e ← asNumF expected
      let lo ← asNumF tolerance_lower
      let hi ← asNumF tolerance_upper
      let within := (e.sub lo).ble a && a.ble (e.add hi)
      let error := (a.sub e).pabs
      let directional := if e.ble a then hi else lo
      some (within, error, BinaryGrader.score_with_tolerance error directional)
    else do
      let a ← asNumF actual
      let e ← asNumF expected
      let t ← asNumF tolerance_value
      let error := (a.sub e).pabs
      some (error.ble t, error, BinaryGrader.score_with_tolerance error t)
  | .vstr "relative" =>
    if pyIsZero expected then do
      let t ← asNumF tolerance_value
      some (PyFloat.inf.ble t, PyFloat.inf, BinaryGrader.score_with_tolerance .inf t)
    else do
      let a ← asNumF actual
      let e ← asNumF expected
      let t ← asNumF tolerance_value
      let rel := ((a.sub e).pabs).div e.pabs
      some (rel.ble t, rel, BinaryGrader.score_with_tolerance rel t)
  | .vstr "min" => do
    let a ← asNumF actual
    let t ← asNumF tolerance_value
    let within := t.ble a
    let error := if a.blt t then t.sub a else .fin 0
    if (PyFloat.fin 0).blt t then
      some (within, error, .fin (BinaryGrader.clamp_score (a.div t)))
    else
      some (within, error, if within then .fin 1 else .fin 0)
  | .vstr "max" => do
    let a ← asNumF actual
    let t ← asNumF tolerance_value
    let within := a.ble t
    let error := if t.blt a then a.sub t else .fin 0
    if (PyFloat.fin 0).blt t then
      some (within, error,
        if (PyFloat.fin 0).blt a then .fin (BinaryGrader.clamp_score (t.div a)) else .fin 1)
    else
      some (within, error, if within then .fin 1 else .fin 0)
  | _ => some (false, .inf, .fin 0)

/-- The failure message appended when a field is out of tolerance
(numeric.py lines 110-119). -/
def outOfToleranceMsg (field : String) (tolerance_type : PyVal) (has_asymmetric : Bool)
    (tolerance_value tolerance_lower tolerance_upper actual expected : PyVal)
    (error : PyFloat) : String :=
  match tolerance_type with
  | .vstr "min" =>
    field ++ ": " ++ pyStr actual ++ " (minimum required: " ++ pyStr tolerance_value ++ ")"
  | .vstr "max" =>
    field ++ ": " ++ pyStr actual ++ " (maximum allowed: " ++ pyStr tolerance_value ++ ")"
  | _ =>
    if has_asymmetric then
      field ++ ": " ++ pyStr actual ++ " vs " ++ pyStr expected ++
        " (allowed: -" ++ pyStr tolerance_lower ++ "/+" ++ pyStr tolerance_upper ++ ")"
    else
      field ++ ": " ++ pyStr actual ++ " vs " ++ pyStr expected ++
        " (error: " ++ fmtVal (.vnum error) 2 ++ ", tolerance: " ++ pyStr tolerance_value ++ ")"

/-- The metric/failure bookkeeping once the try-block produced a verdict
(numeric.py lines 103-119); `none` is the caught TypeError of lines 92-101. -/
def afterTry (st : FieldState) (field : String) (actual expected_value : PyVal)
    (tolerance_type : PyVal) (has_asymmetric : Bool)
    (tolerance_value tolerance_lower tolerance_upper : PyVal) :
    Option (Bool × PyFloat × PyFloat) → FieldState
  | none => invalidType st field actual expected_value
  | some (within, error, field_score) =>
    let clamped := BinaryGrader.clamp_score field_score
    let m := pySet (pySet (pySet (pySet (pySet st.metrics
      (field ++ "_actual") actual)
      (field ++ "_expected") expected_value)
      (field ++ "_error") (.vnum error))
      (field ++ "_pass") (.vbool within))
      (field ++ "_score") (.vnum (.fin clamped))
    { metrics := m
      all_pass := st.all_pass && within
      failures :=
        if within then st.failures
        else st.failures ++ [outOfToleranceMsg field tolerance_type has_asymmetric
          tolerance_value tolerance_lower tolerance_upper actual expected_value error]
      field_scores := st.field_scores ++ [clamped] }

/-- Reading the tolerance parameters out of the resolved per-field config and
scoring (numeric.py lines 50-119). -/
def toleranceScore (st : FieldState) (field : String)
    (expected_value actual : PyVal) (tcfgD : PyDict) : FieldState :=
  let tolerance_type := pyGetD tcfgD "type" (.vstr "absolute")
  let has_asymmetric := pyContains tcfgD "lower" && pyContains tcfgD "upper"
  let tolerance_value := pyGetD tcfgD "value" (.vnum (.fin 0))
  let tolerance_lower := pyGetD tcfgD "lower" tolerance_value
  let tolerance_upper := pyGetD tcfgD "upper" tolerance_value
  afterTry st field actual expected_value tolerance_type has_asymmetric
    tolerance_value tolerance_lower tolerance_upper
    (tryBlock tolerance_type has_asymmetric tolerance_value tolerance_lower
      tolerance_upper actual expected_value)

/-- Tolerance-config resolution and scoring for a present, numeric-coerced,
non-null value (numeric.py lines 47-119). -/
def stageTolerance (tolerances : PyVal) (st : FieldState) (field : String)
    (expected_value actual : PyVal) : Except String FieldState := do
  -- lines 47-49: resolve the tolerance config (flat vs per-field)
  let tolerancesD ← asDictE tolerances
  let defaultCfg : PyVal := .vdict [("type", .vstr "absolute"), ("value", .vnum (.fin 0))]
  let tolerance_config₀ := pyGetD tolerancesD field defaultCfg
  let tolerance_config ←
    if pyContains tolerancesD "type" then do
      let hasVal ← pyInOp "value" (pyGetD tolerancesD field (.vdict []))
      pure (if !hasVal then PyVal.vdict tolerancesD else tolerance_config₀)
    else pure tolerance_config₀
  let tcfgD ← asDictE tolerance_config
  .ok (toleranceScore st field expected_value actual tcfgD)

/-- The null check of numeric.py lines 36-45, after coercions. -/
def stageNull (tolerances : PyVal) (st : FieldState) (field : String)
    (expected_value : PyVal) : PyVal → Except String FieldState
  | .vnone => .ok (noneValue st field expected_value)
  | actual => stageTolerance tolerances st field expected_value actual

/-- The bool-to-int coercion of numeric.py lines 33-34. -/
def coerceBool : PyVal → PyVal
  | .vbool b => .vnum (.fin (if b then 1 else 0))
  | v => v

/-- The outcome of `float(actual_value)` for a string value
(numeric.py lines 23-31). -/
def stageParsed (tolerances : PyVal) (st : FieldState) (field : String)
    (expected_value : PyVal) (raw : PyVal) : Option ℚ → Except String FieldState
  | none => .ok (cannotParse st field raw)
  | some q => stageNull tolerances st field expected_value (.vnum (.fin q))

/-- Dispatch on the looked-up value's type (numeric.py lines 23-34). -/
def stageCoerce (tolerances : PyVal) (st : FieldState) (field : String)
    (expected_value : PyVal) : PyVal → Except String FieldState
  | .vstr raws => stageParsed tolerances st field expected_value (.vstr raws) (pyParseFloat raws)
  | v => stageNull tolerances st field expected_value (coerceBool v)

/-- One iteration of the loop over ground-truth fields
(numeric.py lines 14-119), staged through the helpers above. -/
def processField (agent_answer : PyDict) (tolerances : PyVal)
    (st : FieldState) (field : String) (expected_value : PyVal) :
    Except String FieldState :=
  let av := get_nested_value agent_answer field
  if !av.2 then .ok (missingField st field)
  else stageCoerce tolerances st field expected_value av.1

/-- One per-field report line of `_format_reasoning` (numeric.py lines 136-158). -/
def fieldLine (tolerances : PyVal) (metrics : PyDict) (field : String) : String :=
  let actual := pyGetD metrics (field ++ "_actual") .vnone
  let expected := pyGetD metrics (field ++ "_expected") .vnone
  let error := pyGetD metrics (field ++ "_error") .vnone
  let field_pass := match pyGetD metrics (field ++ "_pass") .vnone with
    | .vbool b => b
    | _ => false
  let field_score := pyGetD metrics (field ++ "_score") (.vnum (.fin 0))
  let check := if field_pass then "+" else "x"
  let tolerance_config := match tolerances with
    | .vdict d => pyGetD d field (.vdict [])
    | _ => .vdict []
  let tcfgD := match tolerance_config with | .vdict d => d | _ => []
  let tolerance_type := pyGetD tcfgD "type" (.vstr "absolute")
  let has_asymmetric := pyContains tcfgD "lower" && pyContains tcfgD "upper"
  match tolerance_type with
  | .vstr "min" =>
    let tol_val := pyGetD tcfgD "value" expected
    "  " ++ check ++ " " ++ field ++ ": " ++ pyStr actual ++ " (minimum: " ++
      pyStr tol_val ++ ", score: " ++ fmtVal field_score 3 ++ ")"
  | .vstr "max" =>
    let tol_val := pyGetD tcfgD "value" expected
    "  " ++ check ++ " " ++ field ++ ": " ++ pyStr actual ++ " (maximum: " ++
      pyStr tol_val ++ ", score: " ++ fmtVal field_score 3 ++ ")"
  | _ =>
    if has_asymmetric then
      "  " ++ check ++ " " ++ field ++ ": " ++ pyStr actual ++ " vs " ++ pyStr expected ++
        " (allowed: -" ++ pyStr (pyGetD tcfgD "lower" .vnone) ++ "/+" ++
        pyStr (pyGetD tcfgD "upper" .vnone) ++ ", score: " ++ fmtVal field_score 3 ++ ")"
    else
      "  " ++ check ++ " " ++ field ++ ": " ++ pyStr actual ++ " vs " ++ pyStr expected ++
        " (error: " ++ fmtVal error 4 ++ ", score: " ++ fmtVal field_score 3 ++ ")"

/-- The line list `_format_reasoning` joins (numeric.py lines 133-165). -/
def format_reasoning_lines (ground_truth : PyDict) (tolerances : PyVal)
    (metrics : PyDict) (failures : List String) (passed : Bool) : List String :=
  let header :=
    ["Numeric Tolerance Check: " ++ (if passed then "PASS" else "FAIL"),
     "Overall score: " ++ fmtVal (pyGetD metrics "score" (.vnum (.fin 0))) 3,
     ""]
  let perField := ground_truth.foldl (fun acc fe =>
    if pyContains metrics (fe.1 ++ "_actual") then acc ++ [fieldLine tolerances metrics fe.1]
    else acc) []
  let tail :=
    if !passed && !failures.isEmpty then
      ["", "Failures:"] ++ failures.map (fun f => "  - " ++ f)
    else []
  header ++ perField ++ tail

/-- numeric.py `NumericToleranceGrader._format_reasoning`. -/
def format_reasoning (ground_truth : PyDict) (tolerances : PyVal)
    (metrics : PyDict) (failures : List String) (passed : Bool) : String :=
  String.intercalate "\n" (format_reasoning_lines ground_truth tolerances metrics failures passed)

/-- graders/numeric.py `NumericToleranceGrader.evaluate_answer` (lines 5-131). -/
def evaluate_answer (agent_answer config : PyDict) : Except String GraderResult := do
  let ground_truth ← asDictE (pyGetD config "ground_truth" (.vdict []))
  let tolerances := pyGetD config "tolerances" (pyGetD config "tolerance" (.vdict []))
  let st ← ground_truth.foldlM
    (fun st fe => processField agent_answer tolerances st fe.1 fe.2)
    { metrics := [], all_pass := true, failures := [], field_scores := [] }
  let overall_score : ℚ :=
    if 0 < st.field_scores.length then st.field_scores.sum / (st.field_scores.length : ℚ)
    else 0
  let clampedOverall := BinaryGrader.clamp_score (.fin overall_score)
  let metrics := pySet st.metrics "score" (.vnum (.fin clampedOverall))
  let reasoning := format_reasoning ground_truth tolerances metrics st.failures st.all_pass
  return { passed := st.all_pass, metrics := metrics, reasoning := reasoning,
           agent_answer := some agent_answer,
           score := clampedOverall }

end NumericToleranceGrader

/-! ## Claim C7: numeric tolerance scenarios -/

/-- The C7 grader config: ground truth n_clusters=5, flat absolute tolerance 1. -/
def cfgC7 : PyDict :=
  [("ground_truth", .vdict [("n_clusters", .vnum (.fin 5))]),
   ("tolerance", .vdict [("type", .vstr "absolute"), ("value", .vnum (.fin 1))])]

def ansC7a : PyDict := [("n_clusters", .vnum (.fin 6))]

def ansC7b : PyDict := [("n_clusters", .vnum (.fin 8))]

/-- The simp set that symbolically evaluates the embedded graders on concrete
inputs. -/
theorem pf_c7_start : NumericToleranceGrader.FieldState.mk [] true [] [] =
    { metrics := [], all_pass := true, failures := [], field_scores := [] } := rfl

set_option maxHeartbeats 4000000 in
theorem processField_c7a :
    NumericToleranceGrader.processField [("n_clusters", PyVal.vnum (.fin 6))]
      (.vdict [("type", PyVal.vstr "absolute"), ("value", PyVal.vnum (.fin 1))])
      { metrics := [], all_pass := true, failures := [], field_scores := [] }
      "n_clusters" (.vnum (.fin 5)) =
    .ok { metrics := [("n_clusters_actual", PyVal.vnum (.fin 6)),
                      ("n_clusters_expected", PyVal.vnum (.fin 5)),
                      ("n_clusters_error", PyVal.vnum (.fin 1)),
                      ("n_clusters_pass", PyVal.vbool true),
                      ("n_clusters_score", PyVal.vnum (.fin 1))],
          all_pass := true, failures := [], field_scores := [1] } := by
  have hc : strContainsChar "n_clusters" '.' = false := by decide
  simp [NumericToleranceGrader.processField, NumericToleranceGrader.stageCoerce,
    NumericToleranceGrader.stageNull, NumericToleranceGrader.stageTolerance,
    NumericToleranceGrader.stageParsed, NumericToleranceGrader.coerceBool,
    NumericToleranceGrader.toleranceScore,
    NumericToleranceGrader.afterTry, NumericToleranceGrader.tryBlock, hc,
    get_nested_value, pyGet, pyGetD, pyContains, pySet, asDictE, asNumF, pyIsZero, pyInOp,
    BinaryGrader.score_with_tolerance, BinaryGrader.clamp_score,
    PyFloat.ble, PyFloat.blt, PyFloat.add, PyFloat.sub, PyFloat.pabs, PyFloat.div]
  norm_num

set_option maxHeartbeats 4000000 in
theorem processField_c7b :
    NumericToleranceGrader.processField [("n_clusters", PyVal.vnum (.fin 8))]
      (.vdict [("type", PyVal.vstr "absolute"), ("value", PyVal.vnum (.fin 1))])
      { metrics := [], all_pass := true, failures := [], field_scores := [] }
      "n_clusters" (.vnum (.fin 5)) =
    .ok { metrics := [("n_clusters_actual", PyVal.vnum (.fin 8)),
                      ("n_clusters_expected", PyVal.vnum (.fin 5)),
                      ("n_clusters_error", PyVal.vnum (.fin 3)),
                      ("n_clusters_pass", PyVal.vbool false),
                      ("n_clusters_score", PyVal.vnum (.fin (1/3)))],
          all_pass := false,
          failures := [NumericToleranceGrader.outOfToleranceMsg "n_clusters"
            (.vstr "absolute") false (.vnum (.fin 1)) (.vnum (.fin 1)) (.vnum (.fin 1))
            (.vnum (.fin 8)) (.vnum (.fin 5)) (.fin 3)],
          field_scores := [1/3] } := by
  have hc : strContainsChar "n_clusters" '.' = false := by decide
  simp [NumericToleranceGrader.processField, NumericToleranceGrader.stageCoerce,
    NumericToleranceGrader.stageNull, NumericToleranceGrader.stageTolerance,
    NumericToleranceGrader.stageParsed, NumericToleranceGrader.coerceBool,
    NumericToleranceGrader.toleranceScore,
    NumericToleranceGrader.afterTry, NumericToleranceGrader.tryBlock, hc,
    get_nested_value, pyGet, pyGetD, pyContains, pySet, asDictE, asNumF, pyIsZero, pyInOp,
    BinaryGrader.score_with_tolerance, BinaryGrader.clamp_score,
    PyFloat.ble, PyFloat.blt, PyFloat.add, PyFloat.sub, PyFloat.pabs, PyFloat.div]
  norm_num

set_option maxHeartbeats 2000000 in
/-- Claim C7: with ground truth n_clusters=5 and tolerance (absolute, 1), the
answer n_clusters=6 yields passed=true and score 1.0, and the answer
n_clusters=8 yields error 3, score 1/3 and passed=false. -/
theorem c7_numeric_scenarios :
    ((NumericToleranceGrader.evaluate_answer ansC7a cfgC7).map
        (fun r => (r.passed, r.score)) = .ok (true, 1)) ∧
    ((NumericToleranceGrader.evaluate_answer ansC7b cfgC7).map
        (fun r => (r.passed, r.score)) = .ok (false, 1/3)) ∧
    ((NumericToleranceGrader.evaluate_answer ansC7b cfgC7).map
        (fun r => pyGet r.metrics "n_clusters_error") = .ok (some (.vnum (.fin 3)))) := by
  refine ⟨?_, ?_, ?_⟩ <;>
    · simp [NumericToleranceGrader.evaluate_answer, cfgC7, ansC7a, ansC7b,
        processField_c7a, processField_c7b,
        pyGet, pyGetD, pyContains, pySet, asDictE, List.foldlM,
        BinaryGrader.clamp_score]
      try norm_num

/-! ## Claims C5 and C6: missing answer fields and the label-set Jaccard score -/

namespace NumericToleranceGrader

theorem pyGet_mem {d : PyDict} {k : String} {v : PyVal} (h : pyGet d k = some v) :
    ∃ kv ∈ d, kv.2 = v := by
  induction d with
  | nil => simp [pyGet] at h
  | cons kv rest ih =>
    rw [pyGet] at h
    by_cases hk : kv.1 = k
    · rw [if_pos hk] at h
      exact ⟨kv, by simp, Option.some.inj h⟩
    · rw [if_neg hk] at h
      obtain ⟨kv', hmem, hv⟩ := ih h
      exact ⟨kv', by simp [hmem], hv⟩

theorem pyGetD_dict_of_wf {tols : PyDict} (hwf : ∀ kv ∈ tols, ∃ d, kv.2 = PyVal.vdict d)
    (f : String) (dd : PyDict) : ∃ d, pyGetD tols f (.vdict dd) = .vdict d := by
  unfold pyGetD
  cases hg : pyGet tols f with
  | none => exact ⟨dd, rfl⟩
  | some v =>
    obtain ⟨kv, hmem, hv⟩ := pyGet_mem hg
    obtain ⟨d, hd⟩ := hwf kv hmem
    exact ⟨d, by simp [hv ▸ hd]⟩

/-- `afterTry` only appends failures and never turns `all_pass` back on. -/
theorem afterTry_props (st : FieldState) (f : String) (a e tt : PyVal) (ha : Bool)
    (tv tl tu : PyVal) (r : Option (Bool × PyFloat × PyFloat)) :
    (∃ tail, (afterTry st f a e tt ha tv tl tu r).failures = st.failures ++ tail) ∧
    ((afterTry st f a e tt ha tv tl tu r).all_pass = true → st.all_pass = true) := by
  cases r with
  | none =>
    exact ⟨⟨[f ++ ": invalid type " ++ pyTypeName a ++ ", expected numeric"],
      by simp [afterTry, invalidType]⟩, by simp [afterTry, invalidType]⟩
  | some wes =>
    obtain ⟨within, error, fs⟩ := wes
    cases within with
    | true => exact ⟨⟨[], by simp [afterTry]⟩, by simp [afterTry]⟩
    | false =>
      exact ⟨⟨[outOfToleranceMsg f tt ha tv tl tu a e error], by simp [afterTry]⟩,
        by simp [afterTry]⟩

theorem toleranceScore_props (st : FieldState) (f : String) (ev actual : PyVal)
    (tcfgD : PyDict) :
    (∃ tail, (toleranceScore st f ev actual tcfgD).failures = st.failures ++ tail) ∧
    ((toleranceScore st f ev actual tcfgD).all_pass = true → st.all_pass = true) := by
  unfold toleranceScore
  exact afterTry_props st f actual ev _ _ _ _ _ _

/-- `stageTolerance` never raises under a dict-of-dicts tolerance config, only
appends failures, and never turns `all_pass` back on. -/
theorem stageTolerance_wf (tols : PyDict)
    (hwf : ∀ kv ∈ tols, ∃ d, kv.2 = PyVal.vdict d)
    (st : FieldState) (f : String) (ev actual : PyVal) :
    ∃ st', stageTolerance (.vdict tols) st f ev actual = .ok st' ∧
      (∃ tail, st'.failures = st.failures ++ tail) ∧
      (st'.all_pass = true → st.all_pass = true) := by
  obtain ⟨d₀, hd₀⟩ := pyGetD_dict_of_wf hwf f []
  obtain ⟨d₁, hd₁⟩ := pyGetD_dict_of_wf hwf f
    [("type", PyVal.vstr "absolute"), ("value", PyVal.vnum (.fin 0))]
  by_cases hpc : pyContains tols "type"
  · by_cases hval : pyContains d₀ "value"
    · refine ⟨toleranceScore st f ev actual d₁, ?_,
        (toleranceScore_props st f ev actual d₁).1, (toleranceScore_props st f ev actual d₁).2⟩
      simp [stageTolerance, asDictE, hd₀, hd₁, hpc, hval, pyInOp]
    · refine ⟨toleranceScore st f ev actual tols, ?_,
        (toleranceScore_props st f ev actual tols).1, (toleranceScore_props st f ev actual tols).2⟩
      simp [stageTolerance, asDictE, hd₀, hd₁, hpc, hval, pyInOp]
  · refine ⟨toleranceScore st f ev actual d₁, ?_,
      (toleranceScore_props st f ev actual d₁).1, (toleranceScore_props st f ev actual d₁).2⟩
    simp [stageTolerance, asDictE, hd₀, hd₁, hpc, pyInOp]

/-- One field step under a dict-of-dicts tolerance config: no exception,
failures only grow, `all_pass` never returns to true. -/
theorem processField_wf (ans : PyDict) (tols : PyDict)
    (hwf : ∀ kv ∈ tols, ∃ d, kv.2 = PyVal.vdict d) (st : FieldState) (f : String) (ev : PyVal) :
    ∃ st', processField ans (.vdict tols) st f ev = .ok st' ∧
      (∃ tail, st'.failures = st.failures ++ tail) ∧
      (st'.all_pass = true → st.all_pass = true) := by
  have hnull : ∀ (v : PyVal),
      ∃ st', stageNull (.vdict tols) st f ev v = .ok st' ∧
        (∃ tail, st'.failures = st.failures ++ tail) ∧
        (st'.all_pass = true → st.all_pass = true) := by
    intro v
    cases v with
    | vnone =>
      exact ⟨noneValue st f ev, by simp [stageNull],
        ⟨[f ++ ": got null/None value"], by simp [noneValue]⟩, by simp [noneValue]⟩
    | vbool b => simpa [stageNull] using stageTolerance_wf tols hwf st f ev (.vbool b)
    | vnum x => simpa [stageNull] using stageTolerance_wf tols hwf st f ev (.vnum x)
    | vstr s => simpa [stageNull] using stageTolerance_wf tols hwf st f ev (.vstr s)
    | vlist xs => simpa [stageNull] using stageTolerance_wf tols hwf st f ev (.vlist xs)
    | vdict d => simpa [stageNull] using stageTolerance_wf tols hwf st f ev (.vdict d)
  by_cases hfound : (get_nested_value ans f).2
  · have hco : ∀ (v : PyVal),
        ∃ st', stageCoerce (.vdict tols) st f ev v = .ok st' ∧
          (∃ tail, st'.failures = st.failures ++ tail) ∧
          (st'.all_pass = true → st.all_pass = true) := by
      intro v
      cases v with
      | vstr s =>
        cases hp : pyParseFloat s with
        | none =>
          exact ⟨cannotParse st f (.vstr s), by simp [stageCoerce, stageParsed, hp],
            ⟨[f ++ ": cannot parse \x27" ++ pyStr (.vstr s) ++ "\x27 as number"],
              by simp [cannotParse]⟩, by simp [cannotParse]⟩
        | some q =>
          obtain ⟨st', h1, h2, h3⟩ := hnull (.vnum (.fin q))
          exact ⟨st', by simpa [stageCoerce, stageParsed, hp] using h1, h2, h3⟩
      | vnone => simpa [stageCoerce, coerceBool] using hnull .vnone
      | vbool b =>
        obtain ⟨st', h1, h2, h3⟩ := hnull (.vnum (.fin (if b then 1 else 0)))
        exact ⟨st', by simpa [stageCoerce, coerceBool] using h1, h2, h3⟩
      | vnum x => simpa [stageCoerce, coerceBool] using hnull (.vnum x)
      | vlist xs => simpa [stageCoerce, coerceBool] using hnull (.vlist xs)
      | vdict d => simpa [stageCoerce, coerceBool] using hnull (.vdict d)
    obtain ⟨st', h1, h2, h3⟩ := hco ((get_nested_value ans f).1)
    exact ⟨st', by simpa [processField, hfound] using h1, h2, h3⟩
  · refine ⟨missingField st f, ?_, ⟨["Missing field: " ++ f], by simp [missingField]⟩,
      by simp [missingField]⟩
    simp [processField, hfound]

end NumericToleranceGrader

namespace NumericToleranceGrader

theorem foldFields_wf (ans : PyDict) (tols : PyDict)
    (hwf : ∀ kv ∈ tols, ∃ d, kv.2 = PyVal.vdict d) (l : List (String × PyVal)) :
    ∀ (st : FieldState),
    ∃ st', l.foldlM (fun s fe => processField ans (.vdict tols) s fe.1 fe.2) st = .ok st' ∧
      (∃ tail, st'.failures = st.failures ++ tail) ∧
      (st'.all_pass = true → st.all_pass = true) := by
  induction l with
  | nil => exact fun st => ⟨st, by simp [List.foldlM], ⟨[], by simp⟩, id⟩
  | cons fe rest ih =>
    intro st
    obtain ⟨st1, h1, ⟨t1, ht1⟩, hp1⟩ := processField_wf ans tols hwf st fe.1 fe.2
    obtain ⟨st2, h2, ⟨t2, ht2⟩, hp2⟩ := ih st1
    refine ⟨st2, ?_, ⟨t1 ++ t2, by rw [ht2, ht1, List.append_assoc]⟩, fun h => hp1 (hp2 h)⟩
    simp [List.foldlM, h1, h2]

theorem foldFields_missing (ans : PyDict) (tols : PyDict)
    (hwf : ∀ kv ∈ tols, ∃ d, kv.2 = PyVal.vdict d)
    (pre post : List (String × PyVal)) (f : String) (ev : PyVal)
    (hmiss : (get_nested_value ans f).2 = false) :
    ∃ st', (pre ++ (f, ev) :: post).foldlM
        (fun s fe => processField ans (.vdict tols) s fe.1 fe.2)
        { metrics := [], all_pass := true, failures := [], field_scores := [] } = .ok st' ∧
      st'.all_pass = false ∧ ("Missing field: " ++ f) ∈ st'.failures := by
  obtain ⟨st1, h1, _, _⟩ := foldFields_wf ans tols hwf pre
    { metrics := [], all_pass := true, failures := [], field_scores := [] }
  have hstep : processField ans (.vdict tols) st1 f ev = .ok (missingField st1 f) := by
    simp [processField, hmiss]
  obtain ⟨st3, h3, ⟨t3, ht3⟩, hp3⟩ := foldFields_wf ans tols hwf post (missingField st1 f)
  refine ⟨st3, ?_, ?_, ?_⟩
  · rw [List.foldlM_append]
    rw [h1]
    simp only [except_bind_ok]
    simp [List.foldlM, hstep, h3]
  · cases hap : st3.all_pass with
    | false => rfl
    | true => simpa [missingField] using hp3 hap
  · rw [ht3]
    simp [missingField]

end NumericToleranceGrader

theorem strList_map_vstr (l : List String) :
    LabelSetJaccardGrader.toLabelList.strList (l.map .vstr) = .ok l := by
  induction l with
  | nil => rfl
  | cons x xs ih => simp [LabelSetJaccardGrader.toLabelList.strList, ih]

theorem stripUpperAll_ok (xs : List PyVal) (h : ∀ v ∈ xs, ∃ s, v = PyVal.vstr s) :
    ∃ ys, MultipleChoiceGrader.stripUpperAll xs = .ok ys := by
  induction xs with
  | nil => exact ⟨[], rfl⟩
  | cons v vs ih =>
    obtain ⟨s, rfl⟩ := h v (by simp)
    obtain ⟨ys, hys⟩ := ih (fun w hw => h w (by simp [hw]))
    exact ⟨MultipleChoiceGrader.normChoice s :: ys,
      by simp [MultipleChoiceGrader.stripUpperAll, MultipleChoiceGrader.stripUpperVal, hys]⟩

theorem format_reasoning_eq (a : PyDict) (b : PyVal) (c : PyDict) (d : List String)
    (e : Bool) : NumericToleranceGrader.format_reasoning a b c d e =
      String.intercalate "\n" (NumericToleranceGrader.format_reasoning_lines a b c d e) := rfl

theorem numeric_missing_line (gt : PyDict) (tols : PyVal) (m : PyDict)
    (fails : List String) (msg : String) (hmem : msg ∈ fails) :
    ("  - " ++ msg) ∈ NumericToleranceGrader.format_reasoning_lines gt tols m fails false := by
  unfold NumericToleranceGrader.format_reasoning_lines
  have hne : fails ≠ [] := by rintro rfl; simp at hmem
  simp [hne]
  exact Or.inr (Or.inr (Or.inr (Or.inr (Or.inr (Or.inr ⟨msg, hmem, rfl⟩)))))

set_option maxHeartbeats 2000000 in
/-- Claim C5 (amended): for each of the three graders, an agent answer missing
the required answer field yields a returned (not raised) result with
passed = false whose reasoning names the missing field; the multiple-choice and
label-set graders also report score = 0, while the numeric grader averages the
per-field scores (each missing field contributing 0) instead of forcing the
overall score to 0. -/
theorem c5_missing_field_amended
    -- multiple choice
    (mcA mcC : PyDict) (mcXs : List PyVal)
    (hmc1 : pyContains mcA "answer" = false)
    (hmc2 : pyGet mcC "correct_answers" = some (.vlist mcXs))
    (hmc3 : ∀ v ∈ mcXs, ∃ s, v = PyVal.vstr s)
    -- label set
    (lsA lsC sc : PyDict) (lf : String) (gl : List String)
    (hls1 : pyGet lsC "answer_field" = some (.vstr lf))
    (hls2 : pyContains lsA lf = false)
    (hls3 : pyGet lsC "ground_truth_labels" = some (.vlist (gl.map .vstr)))
    (hls4 : pyGet lsC "scoring" = some (.vdict sc))
    -- numeric
    (nA nC gt tols : PyDict) (nf : String) (ev : PyVal)
    (hn1 : pyGet nC "ground_truth" = some (.vdict gt))
    (hn2 : pyGetD nC "tolerances" (pyGetD nC "tolerance" (.vdict [])) = .vdict tols)
    (hn3 : ∀ kv ∈ tols, ∃ d, kv.2 = PyVal.vdict d)
    (hn4 : (nf, ev) ∈ gt)
    (hn5 : (get_nested_value nA nf).2 = false) :
    ((MultipleChoiceGrader.evaluate_answer mcA mcC).map
        (fun r => (r.passed, r.score, r.reasoning)) =
      .ok (false, 0, "Agent answer missing required field: answer")) ∧
    ((LabelSetJaccardGrader.evaluate_answer lsA lsC).map
        (fun r => (r.passed, r.score, r.reasoning)) =
      .ok (false, 0, "Agent answer missing required field: " ++ lf)) ∧
    (∃ r, NumericToleranceGrader.evaluate_answer nA nC = .ok r ∧
      r.passed = false ∧
      ∃ L, r.reasoning = String.intercalate "\n" L ∧ "  - " ++ ("Missing field: " ++ nf) ∈ L) := by
  refine ⟨?_, ?_, ?_⟩
  · obtain ⟨ys, hys⟩ := stripUpperAll_ok mcXs hmc3
    have hcc : pyContains mcC "correct_answers" = true := by
      simp [pyContains, hmc2]
    simp [MultipleChoiceGrader.evaluate_answer, MultipleChoiceGrader.correctAnswersOf,
      hcc, hmc1, hmc2, hys, pyGetD]
  · simp [LabelSetJaccardGrader.evaluate_answer, LabelSetJaccardGrader.toLabelList,
      strList_map_vstr, LabelSetJaccardGrader.fieldKeyOf, LabelSetJaccardGrader.presentIn,
      LabelSetJaccardGrader.gradeLabels,
      hls1, hls2, hls3, hls4, pyGetD, asDictE, pyStr]
  · obtain ⟨pre, post, rfl⟩ := List.append_of_mem hn4
    obtain ⟨stF, hfold, hap, hmem⟩ :=
      NumericToleranceGrader.foldFields_missing nA tols hn3 pre post nf ev hn5
    simp only [NumericToleranceGrader.evaluate_answer, hn2, hfold, except_bind_ok]
    rw [show pyGetD nC "ground_truth" (.vdict []) = .vdict (pre ++ (nf, ev) :: post) by
      simp [pyGetD, hn1]]
    simp only [asDictE, except_bind_ok, hfold]
    refine ⟨_, rfl, hap, _, format_reasoning_eq _ _ _ _ _, ?_⟩
    rw [hap]
    exact numeric_missing_line _ _ _ _ _ hmem

/-! ## Claim C5/C6 concrete configurations -/

def cfgC5 : PyDict :=
  [("ground_truth", .vdict [("a", .vnum (.fin 5)), ("b", .vnum (.fin 5))])]

def ansC5 : PyDict := [("a", .vnum (.fin 5))]

set_option maxHeartbeats 4000000 in
theorem processField_c5a :
    NumericToleranceGrader.processField [("a", PyVal.vnum (.fin 5))] (.vdict [])
      { metrics := [], all_pass := true, failures := [], field_scores := [] }
      "a" (.vnum (.fin 5)) =
    .ok { metrics := [("a_actual", PyVal.vnum (.fin 5)),
                      ("a_expected", PyVal.vnum (.fin 5)),
                      ("a_error", PyVal.vnum (.fin 0)),
                      ("a_pass", PyVal.vbool true),
                      ("a_score", PyVal.vnum (.fin 1))],
          all_pass := true, failures := [], field_scores := [1] } := by
  have hc : strContainsChar "a" '.' = false := by decide
  simp [NumericToleranceGrader.processField, NumericToleranceGrader.stageCoerce,
    NumericToleranceGrader.stageNull, NumericToleranceGrader.stageTolerance,
    NumericToleranceGrader.stageParsed, NumericToleranceGrader.coerceBool,
    NumericToleranceGrader.toleranceScore,
    NumericToleranceGrader.afterTry, NumericToleranceGrader.tryBlock, hc,
    get_nested_value, pyGet, pyGetD, pyContains, pySet, asDictE, asNumF, pyIsZero, pyInOp,
    BinaryGrader.score_with_tolerance, BinaryGrader.clamp_score,
    PyFloat.ble, PyFloat.blt, PyFloat.add, PyFloat.sub, PyFloat.pabs, PyFloat.div]
  try norm_num

theorem processField_c5b (st : NumericToleranceGrader.FieldState) :
    NumericToleranceGrader.processField [("a", PyVal.vnum (.fin 5))] (.vdict [])
      st "b" (.vnum (.fin 5)) =
      .ok (NumericToleranceGrader.missingField st "b") := by
  have h2 : (get_nested_value [("a", PyVal.vnum (.fin 5))] "b").2 = false := rfl
  simp [NumericToleranceGrader.processField, h2]

set_option maxHeartbeats 2000000 in
/-- Counterexample to claim C5: the numeric grader on ground truth
{a: 5, b: 5} and agent answer {a: 5} (field b missing) returns
passed = false but score = 1/2 — the mean of the per-field scores — not the
score = 0 the claim requires of every grader. -/
theorem c5_counterexample :
    ((NumericToleranceGrader.evaluate_answer ansC5 cfgC5).map
        (fun r => (r.passed, r.score)) = .ok (false, 1/2)) ∧
    ¬ ((NumericToleranceGrader.evaluate_answer ansC5 cfgC5).map
        (fun r => r.score) = .ok 0) := by
  have h1 : (NumericToleranceGrader.evaluate_answer ansC5 cfgC5).map
      (fun r => (r.passed, r.score)) = .ok (false, 1/2) := by
    simp [NumericToleranceGrader.evaluate_answer, cfgC5, ansC5,
      processField_c5a, processField_c5b, NumericToleranceGrader.missingField,
      pyGet, pyGetD, pyContains, pySet, asDictE, List.foldlM, BinaryGrader.clamp_score]
    norm_num
  refine ⟨h1, ?_⟩
  intro h
  have h2 : (NumericToleranceGrader.evaluate_answer ansC5 cfgC5).map
      (fun r => r.score) = .ok (1/2) := by
    simp [NumericToleranceGrader.evaluate_answer, cfgC5, ansC5,
      processField_c5a, processField_c5b, NumericToleranceGrader.missingField,
      pyGet, pyGetD, pyContains, pySet, asDictE, List.foldlM, BinaryGrader.clamp_score]
    norm_num
  rw [h2] at h
  simp only [Except.ok.injEq] at h
  norm_num at h

def cfgC6 : PyDict :=
  [("ground_truth_labels", .vlist [.vstr "A", .vstr "B", .vstr "C"]),
   ("answer_field", .vstr "cell_types_predicted"),
   ("scoring", .vdict [("pass_threshold", .vnum (.fin (9/10)))])]

def ansC6 : PyDict := [("cell_types_predicted", .vlist [.vstr "A", .vstr "B"])]

set_option maxHeartbeats 2000000 in
/-- Counterexample to claim C6: for ground truth {A,B,C}, predicted {A,B},
threshold 0.9, the grader reports jaccard_index 2/3 in the metrics and
passed = false with false_negatives = ["C"], but the GraderResult score field
is 0, not the Jaccard index 2/3 the claim asserts. -/
theorem c6_counterexample :
    ((LabelSetJaccardGrader.evaluate_answer ansC6 cfgC6).map
        (fun r => (r.passed, r.score)) = .ok (false, 0)) ∧
    ((LabelSetJaccardGrader.evaluate_answer ansC6 cfgC6).map
        (fun r => pyGet r.metrics "jaccard_index") = .ok (some (.vnum (.fin (2/3))))) ∧
    ((LabelSetJaccardGrader.evaluate_answer ansC6 cfgC6).map
        (fun r => pyGet r.metrics "false_negatives") = .ok (some (.vlist [.vstr "C"]))) ∧
    ¬ ((LabelSetJaccardGrader.evaluate_answer ansC6 cfgC6).map
        (fun r => r.score) = .ok (2/3)) := by
  refine ⟨?_, ?_, ?_, ?_⟩
  · simp [LabelSetJaccardGrader.evaluate_answer, cfgC6, ansC6,
      LabelSetJaccardGrader.toLabelList, LabelSetJaccardGrader.toLabelList.strList,
      LabelSetJaccardGrader.fieldKeyOf, LabelSetJaccardGrader.presentIn,
      LabelSetJaccardGrader.gradeLabels, LabelSetJaccardGrader.geThreshold,
      LabelSetJaccardGrader.dedupFirst, LabelSetJaccardGrader.jaccardQ,
      LabelSetJaccardGrader.setInter, LabelSetJaccardGrader.setUnion,
      LabelSetJaccardGrader.setDiff, LabelSetJaccardGrader.sortedLabels,
      List.insertionSort, List.orderedInsert, List.contains,
      pyGet, pyGetD, pyContains, pySet, asDictE]
    try norm_num
  · simp [LabelSetJaccardGrader.evaluate_answer, cfgC6, ansC6,
      LabelSetJaccardGrader.toLabelList, LabelSetJaccardGrader.toLabelList.strList,
      LabelSetJaccardGrader.fieldKeyOf, LabelSetJaccardGrader.presentIn,
      LabelSetJaccardGrader.gradeLabels, LabelSetJaccardGrader.geThreshold,
      LabelSetJaccardGrader.dedupFirst, LabelSetJaccardGrader.jaccardQ,
      LabelSetJaccardGrader.setInter, LabelSetJaccardGrader.setUnion,
      LabelSetJaccardGrader.setDiff, LabelSetJaccardGrader.sortedLabels,
      List.insertionSort, List.orderedInsert, List.contains,
      pyGet, pyGetD, pyContains, pySet, asDictE]
    try norm_num
  · simp [LabelSetJaccardGrader.evaluate_answer, cfgC6, ansC6,
      LabelSetJaccardGrader.toLabelList, LabelSetJaccardGrader.toLabelList.strList,
      LabelSetJaccardGrader.fieldKeyOf, LabelSetJaccardGrader.presentIn,
      LabelSetJaccardGrader.gradeLabels, LabelSetJaccardGrader.geThreshold,
      LabelSetJaccardGrader.dedupFirst, LabelSetJaccardGrader.jaccardQ,
      LabelSetJaccardGrader.setInter, LabelSetJaccardGrader.setUnion,
      LabelSetJaccardGrader.setDiff, LabelSetJaccardGrader.sortedLabels,
      List.insertionSort, List.orderedInsert, List.contains,
      pyGet, pyGetD, pyContains, pySet, asDictE]
    try norm_num
  · intro h
    have h2 : (LabelSetJaccardGrader.evaluate_answer ansC6 cfgC6).map
        (fun r => r.score) = .ok 0 := by
      simp [LabelSetJaccardGrader.evaluate_answer, cfgC6, ansC6,
        LabelSetJaccardGrader.toLabelList, LabelSetJaccardGrader.toLabelList.strList,
        LabelSetJaccardGrader.fieldKeyOf, LabelSetJaccardGrader.presentIn,
        LabelSetJaccardGrader.gradeLabels, LabelSetJaccardGrader.geThreshold,
        pyGet, pyGetD, pyContains, pySet, asDictE]
    rw [h2] at h
    simp only [Except.ok.injEq] at h
    norm_num at h

set_option maxHeartbeats 1000000 in
/-- Claim C6 (amended): when the required answer field is present, the
label-set grader computes the Jaccard index |intersection|/|union| of the
deduplicated predicted and ground-truth label lists, sets passed iff the index
is at least the configured threshold, and reports the index and the sorted
false-negative set in the metrics map — while the GraderResult score field is
always 0 (the dataclass default; the index is never assigned to it). -/
theorem c6_jaccard_amended (ans cfg sc : PyDict) (f : String) (gt pred : List String) (thr : ℚ)
    (h1 : pyGet cfg "ground_truth_labels" = some (.vlist (gt.map .vstr)))
    (h2 : pyGet cfg "scoring" = some (.vdict sc))
    (h3 : pyGet sc "pass_threshold" = some (.vnum (.fin thr)))
    (h4 : pyGet cfg "answer_field" = some (.vstr f))
    (h5 : pyGet ans f = some (.vlist (pred.map .vstr))) :
    ((LabelSetJaccardGrader.evaluate_answer ans cfg).map
        (fun r => (r.passed, r.score)) =
      .ok (decide (thr ≤ LabelSetJaccardGrader.jaccardQ
        (LabelSetJaccardGrader.dedupFirst gt) (LabelSetJaccardGrader.dedupFirst pred)), 0)) ∧
    ((LabelSetJaccardGrader.evaluate_answer ans cfg).map
        (fun r => pyGet r.metrics "jaccard_index") =
      .ok (some (.vnum (.fin (LabelSetJaccardGrader.jaccardQ
        (LabelSetJaccardGrader.dedupFirst gt) (LabelSetJaccardGrader.dedupFirst pred)))))) ∧
    ((LabelSetJaccardGrader.evaluate_answer ans cfg).map
        (fun r => pyGet r.metrics "false_negatives") =
      .ok (some (.vlist ((LabelSetJaccardGrader.sortedLabels (LabelSetJaccardGrader.setDiff
        (LabelSetJaccardGrader.dedupFirst gt)
        (LabelSetJaccardGrader.dedupFirst pred))).map .vstr)))) := by
  refine ⟨?_, ?_, ?_⟩ <;>
    simp [LabelSetJaccardGrader.evaluate_answer, LabelSetJaccardGrader.toLabelList,
      strList_map_vstr, LabelSetJaccardGrader.fieldKeyOf, LabelSetJaccardGrader.presentIn,
      LabelSetJaccardGrader.gradeLabels, LabelSetJaccardGrader.geThreshold,
      h1, h2, h3, h4, h5, pyGet, pyGetD, pyContains, asDictE]

/-- Witness for the amended claim C5: concrete missing-field answers for all
three graders. -/
theorem c5_missing_field_amended_witness :
    ((MultipleChoiceGrader.evaluate_answer [] [("correct_answers", .vlist [.vstr "X"])]).map
        (fun r => (r.passed, r.score, r.reasoning)) =
      .ok (false, 0, "Agent answer missing required field: answer")) ∧
    ((LabelSetJaccardGrader.evaluate_answer []
        [("answer_field", .vstr "f"), ("ground_truth_labels", .vlist [.vstr "A"]),
         ("scoring", .vdict [])]).map
        (fun r => (r.passed, r.score, r.reasoning)) =
      .ok (false, 0, "Agent answer missing required field: " ++ "f")) ∧
    (∃ r, NumericToleranceGrader.evaluate_answer []
        [("ground_truth", .vdict [("b", .vnum (.fin 5))])] = .ok r ∧
      r.passed = false ∧
      ∃ L, r.reasoning = String.intercalate "\n" L ∧ "  - " ++ ("Missing field: " ++ "b") ∈ L) :=
  c5_missing_field_amended [] [("correct_answers", .vlist [.vstr "X"])] [.vstr "X"]
    rfl rfl (by intro v hv; rw [List.mem_singleton] at hv; exact ⟨"X", hv⟩)
    [] [("answer_field", .vstr "f"), ("ground_truth_labels", .vlist [.vstr "A"]),
        ("scoring", .vdict [])] [] "f" ["A"]
    rfl rfl rfl rfl
    [] [("ground_truth", .vdict [("b", .vnum (.fin 5))])] [("b", .vnum (.fin 5))] []
    "b" (.vnum (.fin 5))
    rfl rfl (by intro kv hkv; exact absurd hkv (List.not_mem_nil kv))
    (List.mem_singleton.mpr rfl) rfl

/-- Witness for the amended claim C6 at ground truth [A,B,C], predicted [A,B],
threshold 9/10. -/
theorem c6_jaccard_amended_witness :
    ((LabelSetJaccardGrader.evaluate_answer ansC6 cfgC6).map
        (fun r => (r.passed, r.score)) =
      .ok (decide ((9/10 : ℚ) ≤ LabelSetJaccardGrader.jaccardQ
        (LabelSetJaccardGrader.dedupFirst ["A", "B", "C"])
        (LabelSetJaccardGrader.dedupFirst ["A", "B"])), 0)) ∧
    ((LabelSetJaccardGrader.evaluate_answer ansC6 cfgC6).map
        (fun r => pyGet r.metrics "jaccard_index") =
      .ok (some (.vnum (.fin (LabelSetJaccardGrader.jaccardQ
        (LabelSetJaccardGrader.dedupFirst ["A", "B", "C"])
        (LabelSetJaccardGrader.dedupFirst ["A", "B"])))))) ∧
    ((LabelSetJaccardGrader.evaluate_answer ansC6 cfgC6).map
        (fun r => pyGet r.metrics "false_negatives") =
      .ok (some (.vlist ((LabelSetJaccardGrader.sortedLabels (LabelSetJaccardGrader.setDiff
        (LabelSetJaccardGrader.dedupFirst ["A", "B", "C"])
        (LabelSetJaccardGrader.dedupFirst ["A", "B"]))).map .vstr)))) :=
  c6_jaccard_amended ansC6 cfgC6 [("pass_threshold", .vnum (.fin (9/10)))]
    "cell_types_predicted" ["A", "B", "C"] ["A", "B"] (9/10) rfl rfl rfl rfl rfl

/-! ## The headless recorder (headless_eval_server.py lines 400-472)

The state machine that assembles streamed deltas into finalized conversation
messages and trajectory entries.  Frames arrive as JSON dicts over a
websocket; the embedding types each frame by the `type` key that
`add_to_history` dispatches on, and keeps every payload that the code stores
or inspects as a `PyVal`.  Wall-clock timestamps, session ids and uuids
(`time.time()`, `uuid.uuid4()`) are I/O and are omitted from the stored
entries; no claim observes them. -/

/-- One in-progress content block of the streaming message
(headless_eval_server.py lines 412-424). -/
inductive CBlock where
  | text (s : String)
  | thinking (s : String)
  | toolUse (id name : PyVal) (input : PyVal) (input_raw : Option String)
deriving Repr

/-- A content-block dict as it appears in a finalized message. -/
def cblockToVal : CBlock → PyVal
  | .text s => .vdict [("type", .vstr "text"), ("text", .vstr s)]
  | .thinking s => .vdict [("type", .vstr "thinking"), ("thinking", .vstr s)]
  | .toolUse id name input raw =>
      .vdict ([("type", .vstr "tool_use"), ("id", id), ("name", name), ("input", input)] ++
        (match raw with | some r => [("input_raw", .vstr r)] | none => []))

/-- An incoming websocket frame, typed by the `type` key `add_to_history`
dispatches on; `other` covers every type the recorder ignores. -/
inductive HMsg where
  | anthropic_message (rest : PyDict)
  | user_message (rest : PyDict)
  | agent_stream_start
  | agent_stream_block_start (block_type : String) (block_id block_name : PyVal)
  | agent_stream_delta (block_index : Int) (delta : String)
  | agent_usage_update (usage : PyVal)
  | agent_stream_complete
  | agent_history_updated
  | agent_error (error : String)
  | kernel_cell_result (cell_id : String) (has_exception : Bool) (logs : String)
      (exception : PyVal)
  | other
deriving Repr

/-- The recorder state of `HeadlessEvalServer`. -/
structure HState where
  conversation_history : List PyVal := []
  trajectory : List PyVal := []
  current_streaming_message : Option PyDict := none
  current_streaming_blocks : List CBlock := []
  current_usage : PyVal := .vnone
  turn_number : Nat := 0
  eval_complete : Bool := false
deriving Repr

/-- Python truthiness (`if x:`) for JSON-like values. -/
def pyTruthy : PyVal → Bool
  | .vnone => false
  | .vbool b => b
  | .vnum (.fin q) => decide (q ≠ 0)
  | .vnum .inf => true
  | .vstr s => !s.data.isEmpty
  | .vlist xs => !xs.isEmpty
  | .vdict d => !d.isEmpty

/-- `v == "s"` in Python for a JSON value `v` and a string literal. -/
def isStr (v : PyVal) (s : String) : Bool :=
  match v with
  | .vstr t => decide (t = s)
  | _ => false

/-- Python list indexing: a negative index counts from the end. -/
def pyIdx (i : Int) (len : Nat) : Int := if i < 0 then (len : Int) + i else i

/-- `xs[i]` with Python semantics: IndexError when the (sign-adjusted) index
is out of range. -/
def pyListGet (xs : List CBlock) (i : Int) : Except String CBlock :=
  if 0 ≤ pyIdx i xs.length then
    match xs.get? (pyIdx i xs.length).toNat with
    | some b => .ok b
    | none => .error "IndexError: list index out of range"
  else .error "IndexError: list index out of range"

/-- In-place update of `xs[i]` (the index has already been bounds-checked). -/
def pyListSet (xs : List CBlock) (i : Int) (b : CBlock) : List CBlock :=
  xs.set (pyIdx i xs.length).toNat b

/-- One `agent_stream_delta` applied to the addressed block
(headless_eval_server.py lines 428-434): text/thinking append to their string
field, tool_use appends to the `input_raw` accumulator — never to `input`. -/
def applyDelta (delta : String) : CBlock → CBlock
  | .text s => .text (s ++ delta)
  | .thinking s => .thinking (s ++ delta)
  | .toolUse id name input raw => .toolUse id name input (some (raw.getD "" ++ delta))

/-- Finalization of one block at `agent_stream_complete`
(headless_eval_server.py lines 439-444): a tool_use block with an `input_raw`
accumulator gets it parsed as JSON into `input`, with `{}` substituted when
parsing fails; `jl` is the model of `json.loads` (`none` = JSONDecodeError). -/
def finalizeBlock (jl : String → Option PyVal) : CBlock → CBlock
  | .toolUse id name _input (some raw) => .toolUse id name ((jl raw).getD (.vdict [])) none
  | b => b

/-- `add_assistant_to_trajectory` (headless_eval_server.py lines 360-375). -/
def add_assistant_to_trajectory (st : HState) (content : List PyVal) : HState :=
  { st with
      turn_number := st.turn_number + 1,
      trajectory := st.trajectory ++ [.vdict
        [("type", .vstr "assistant"),
         ("message", .vdict [("role", .vstr "assistant"), ("content", .vlist content)]),
         ("turn", .vnum (.fin ((st.turn_number + 1 : Nat) : ℚ))),
         ("usage", st.current_usage)]],
      current_usage := .vnone }

/-- `result[:500]` plus the `'...'` marker of `add_tool_result_to_trajectory`. -/
def truncResult (r : String) : String :=
  if 500 < r.data.length then String.mk (r.data.take 500) ++ "..." else r

/-- `add_tool_result_to_trajectory` (headless_eval_server.py lines 377-398). -/
def add_tool_result_to_trajectory (st : HState) (tool_use_id : PyVal) (result : String)
    (is_error : Bool) (cell_id : Option String) : HState :=
  { st with trajectory := st.trajectory ++ [.vdict (
      [("type", .vstr "user"),
       ("message", .vdict [("role", .vstr "user"),
          ("content", .vlist [.vdict
            [("type", .vstr "tool_result"), ("tool_use_id", tool_use_id),
             ("content", .vstr result), ("is_error", .vbool is_error)]])]),
       ("tool_use_result", .vstr ((if is_error then "Error: " else "") ++ truncResult result))]
      ++ (match cell_id with
          | some c => if c = "" then [] else [("cell_id", .vstr c)]
          | none => []))] }

/-- `entry.get("message", \x7b\x7d).get("content", [])`, iterated as Python
would iterate it (AttributeError on a non-dict message, TypeError on a
non-iterable content). -/
def msgContent (d : PyDict) : Except String (List PyVal) :=
  match pyGetD d "message" (.vdict []) with
  | .vdict m =>
      match pyGetD m "content" (.vlist []) with
      | .vlist xs => .ok xs
      | .vstr s => .ok (s.data.map (fun c => .vstr (String.mk [c])))
      | .vdict dd => .ok (dd.map (fun kv => .vstr kv.1))
      | _ => .error "TypeError"
  | _ => .error "AttributeError"

/-- The inner block scan of `find_last_tool_use_id_for_cell`: the FIRST
tool_use block named `create_cell` in a content list, in list order. -/
def firstCreateCellId : List PyVal → Except String (Option PyVal)
  | [] => .ok none
  | .vdict b :: rest =>
      if isStr (pyGetD b "type" .vnone) "tool_use" &&
         isStr (pyGetD b "name" .vnone) "create_cell"
      then .ok (some (pyGetD b "id" .vnone))
      else firstCreateCellId rest
  | _ :: _ => .error "AttributeError"

/-- `find_last_tool_use_id_for_cell` (headless_eval_server.py lines 465-472):
walks the trajectory backward, and in the most recent assistant entry whose
content holds a `create_cell` tool_use block returns that entry's FIRST such
block's id.  The `cell_id` argument is never read.  Returns `vnone` when no
entry matches (Python `None`, merged with a found-but-null id). -/
def find_last_tool_use_id_for_cell (trajectory : List PyVal) (cell_id : String) :
    Except String PyVal :=
  go trajectory.reverse
where
  go : List PyVal → Except String PyVal
  | [] => .ok .vnone
  | .vdict d :: rest =>
      if isStr (pyGetD d "type" .vnone) "assistant" then do
        let content ← msgContent d
        let r ← firstCreateCellId content
        match r with
        | some i => .ok i
        | none => go rest
      else go rest
  | _ :: _ => .error "AttributeError"

/-- `add_to_history` (headless_eval_server.py lines 400-450), one frame.
`jl` models `json.loads`. -/
def processFrame (jl : String → Option PyVal) (st : HState) : HMsg → Except String HState
  | .anthropic_message rest =>
      .ok { st with conversation_history :=
        st.conversation_history ++ [.vdict (("type", .vstr "anthropic_message") :: rest)] }
  | .user_message rest =>
      .ok { st with conversation_history :=
        st.conversation_history ++ [.vdict (("type", .vstr "user_message") :: rest)] }
  | .agent_stream_start =>
      .ok { st with
        current_streaming_message := some
          [("type", .vstr "anthropic_message"), ("role", .vstr "assistant"),
           ("content", .vlist [])],
        current_streaming_blocks := [] }
  | .agent_stream_block_start bt bid bname =>
      if bt = "text" then
        .ok { st with current_streaming_blocks := st.current_streaming_blocks ++ [.text ""] }
      else if bt = "thinking" then
        .ok { st with current_streaming_blocks := st.current_streaming_blocks ++ [.thinking ""] }
      else if bt = "tool_use" then
        .ok { st with current_streaming_blocks :=
          st.current_streaming_blocks ++ [.toolUse bid bname (.vdict []) none] }
      else .ok st
  | .agent_stream_delta block_index delta =>
      if block_index < (st.current_streaming_blocks.length : Int) then
        (pyListGet st.current_streaming_blocks block_index).map (fun b =>
          { st with current_streaming_blocks :=
              pyListSet st.current_streaming_blocks block_index (applyDelta delta b) })
      else .ok st
  | .agent_usage_update usage => .ok { st with current_usage := usage }
  | .agent_stream_complete =>
      match st.current_streaming_message with
      | none => .ok st
      | some m =>
        let blocks := st.current_streaming_blocks.map (finalizeBlock jl)
        let content := blocks.map cblockToVal
        let msg : PyVal := .vdict (pySet m "content" (.vlist content))
        let st₁ := add_assistant_to_trajectory
          { st with conversation_history := st.conversation_history ++ [msg] } content
        .ok { st₁ with current_streaming_message := none, current_streaming_blocks := [] }
  | .agent_history_updated => .ok st
  | .agent_error _ => .ok st
  | .kernel_cell_result cell_id has_exception logs exception =>
      let base := if logs = "" then "Cell executed successfully" else logs
      let result_str :=
        if has_exception && pyTruthy exception
        then "Exception: " ++ pyStr exception ++ "\n" ++ logs
        else base
      do
        let tid ← find_last_tool_use_id_for_cell st.trajectory cell_id
        if pyTruthy tid then
          .ok (add_tool_result_to_trajectory st tid result_str has_exception (some cell_id))
        else .ok st
  | .other => .ok st

/-- A sequence of frames through `add_to_history`. -/
def processFrames (jl : String → Option PyVal) (st : HState) :
    List HMsg → Except String HState
  | [] => .ok st
  | f :: rest => do
      let st₁ ← processFrame jl st f
      processFrames jl st₁ rest

/-! ## Completion detection and the headless run loop
(headless_eval_server.py lines 534-543 and 594-619) -/

/-- One content block of `check_for_completion`: does it complete the eval?
`tool_input.get` raises AttributeError when `input` is not a dict. -/
def blockCompletes : PyVal → Except String Bool
  | .vdict b =>
      if isStr (pyGetD b "type" .vnone) "tool_use" &&
         isStr (pyGetD b "name" .vnone) "submit_response" then
        match pyGetD b "input" (.vdict []) with
        | .vdict d => .ok (isStr (pyGetD d "next_status" .vnone) "done")
        | _ => .error "AttributeError"
      else .ok false
  | _ => .ok false

def anyBlockCompletes : List PyVal → Except String Bool
  | [] => .ok false
  | b :: rest => do
      let r ← blockCompletes b
      if r then .ok true else anyBlockCompletes rest

/-- `payload.get("content", [])` iterated as Python would. -/
def contentList : PyVal → Except String (List PyVal)
  | .vlist xs => .ok xs
  | .vstr s => .ok (s.data.map (fun c => .vstr (String.mk [c])))
  | .vdict d => .ok (d.map (fun kv => .vstr kv.1))
  | _ => .error "TypeError"

/-- `check_for_completion` (headless_eval_server.py lines 534-543): scans the
conversation history for an assistant anthropic_message holding a
`submit_response` tool_use whose input field `next_status` equals "done". -/
def check_for_completion : List PyVal → Except String Bool
  | [] => .ok false
  | .vdict d :: rest =>
      if isStr (pyGetD d "type" .vnone) "anthropic_message" &&
         isStr (pyGetD d "role" .vnone) "assistant" then do
        let content ← contentList (pyGetD d "content" (.vlist []))
        let r ← anyBlockCompletes content
        if r then .ok true else check_for_completion rest
      else check_for_completion rest
  | _ :: _ => .error "AttributeError"

/-- The frame types after which `run_eval` re-evaluates the completion
predicate (headless_eval_server.py line 611). -/
def isCompletionFrame : HMsg → Bool
  | .agent_history_updated => true
  | .agent_stream_complete => true
  | _ => false

/-- The `while not self.eval_complete` receive loop of `run_eval`
(headless_eval_server.py lines 594-619) over a stream of incoming frames:
each iteration first checks the flag, then consumes one frame through
`add_to_history`, raises on `agent_error`, and re-checks completion after
`agent_history_updated`/`agent_stream_complete` frames.  Returns the final
state, the number of times the completion predicate fired (returned true),
and the frames left unconsumed when the loop exited. -/
def run_eval_loop (jl : String → Option PyVal) :
    List HMsg → HState → Nat → Except String (HState × Nat × List HMsg)
  | [], st, fires => .ok (st, fires, [])
  | f :: rest, st, fires =>
    if st.eval_complete then .ok (st, fires, f :: rest)
    else do
      let st₁ ← processFrame jl st f
      match f with
      | .agent_error e => .error ("Agent error: " ++ e)
      | _ =>
        if isCompletionFrame f then do
          let c ← check_for_completion st₁.conversation_history
          run_eval_loop jl rest { st₁ with eval_complete := c }
            (fires + if c then 1 else 0)
        else run_eval_loop jl rest st₁ fires

/-! ## The EvalServer wait loop (eval_server.py lines 308-326) -/

/-- What `EvalServer.run_eval`'s waiting loop can observe in one iteration. -/
structure PollObs where
  eval_complete : Bool
  forward_done : Bool
  receive_done : Bool

inductive WaitOutcome where
  | completed
  | tasksEnded
  | stillWaiting
deriving Repr, DecidableEq

/-- The `while not self.eval_complete` loop of `EvalServer.run_eval`
(eval_server.py lines 308-326): exits when completion is flagged or when a
forwarding task ends; otherwise sleeps and polls again.  The loop body
contains no deadline check: with an observation stream that never flags
either condition it is still waiting when the stream runs out, however long
the stream is. -/
def evalWaitLoop : List PollObs → WaitOutcome
  | [] => .stillWaiting
  | o :: rest =>
    if o.eval_complete then .completed
    else if o.forward_done || o.receive_done then .tasksEnded
    else evalWaitLoop rest

/-! ## Answer extraction and the grading step
(eval_server.py lines 347-390, headless_eval_server.py lines 630-668) -/

/-- Suffix of `l` after the first occurrence of `pat`, if any. -/
def dropThroughSub (pat : List Char) : List Char → Option (List Char)
  | [] => if pat = [] then some [] else none
  | c :: rest =>
      if pat.isPrefixOf (c :: rest) then some ((c :: rest).drop pat.length)
      else dropThroughSub pat rest

/-- Prefix of `l` before the first occurrence of `pat`, if any. -/
def takeUntilSub (pat : List Char) : List Char → Option (List Char)
  | [] => if pat = [] then some [] else none
  | c :: rest =>
      if pat.isPrefixOf (c :: rest) then some []
      else (takeUntilSub pat rest).map (fun t => c :: t)

/-- Modelled from the spec: `extract_answer_from_conversation` lives in
answer_extraction.py, which is not in src/.  Spec section 4.4: scan the
assistant messages of the full ordered conversation for the most recent
sentinel-delimited block (the EVAL_ANSWER open/close tag pair), parse the
enclosed text as JSON, and return null — never raising — when no block
exists or parsing fails.  `jl` models `json.loads`. -/
def extract_answer_from_conversation (jl : String → Option PyVal)
    (history : List PyVal) : Option PyVal :=
  go history none
where
  texts : List PyVal → List Char
  | [] => []
  | .vdict b :: rest =>
      (match pyGetD b "text" .vnone with
       | .vstr s => s.data
       | _ => []) ++ texts rest
  | _ :: rest => texts rest
  lastBlock : Nat → List Char → Option (List Char) → Option (List Char)
  | 0, _, acc => acc
  | fuel+1, cs, acc =>
      match dropThroughSub "<EVAL_ANSWER>".data cs with
      | none => acc
      | some rest =>
          match takeUntilSub "</EVAL_ANSWER>".data rest with
          | none => acc
          | some body => lastBlock fuel rest (some body)
  go : List PyVal → Option PyVal → Option PyVal
  | [], acc => acc
  | .vdict d :: rest, acc =>
      if isStr (pyGetD d "role" .vnone) "assistant" then
        match (let cs := texts (match pyGetD d "content" (.vlist []) with
                                | .vlist xs => xs
                                | _ => []);
               lastBlock (cs.length + 1) cs none) with
        | some body => go rest ((jl (String.mk body)).orElse (fun _ => acc))
        | none => go rest acc
      else go rest acc
  | _ :: rest, acc => go rest acc

/-- The dict stored as the grader result when no answer was extracted
(eval_server.py lines 366-371, headless_eval_server.py lines 648-653).
Note: it has no "score" key. -/
def no_answer_grader_result : PyDict :=
  [("passed", .vbool false),
   ("metrics", .vdict []),
   ("reasoning", .vstr "Failed to extract answer from conversation history"),
   ("agent_answer", .vnone)]

/-- The grading step of `run_eval` (eval_server.py lines 360-390 and
headless_eval_server.py lines 642-668), parameterized by the grader
registry: returns the stored `grader_result` dict (`none` when no grader is
configured or the grader type is unknown). -/
def run_eval_grading
    (registry : String → Option (PyDict → PyDict → Except String GraderResult))
    (grader : Option PyDict) (agent_answer : Option PyVal) :
    Except String (Option PyVal) :=
  match grader with
  | none => .ok none
  | some g =>
    if g.isEmpty then .ok none
    else
      match agent_answer with
      | none => .ok (some (.vdict no_answer_grader_result))
      | some a =>
        match (match pyGetD g "type" .vnone with
               | .vstr s => registry s
               | _ => none) with
        | some f => do
            let aD ← asDictE a
            let cfg ← asDictE (pyGetD g "config" (.vdict []))
            let r ← f aD cfg
            .ok (some (.vdict
              [("passed", .vbool r.passed),
               ("metrics", .vdict r.metrics),
               ("reasoning", .vstr r.reasoning),
               ("agent_answer",
                 match r.agent_answer with | some d => .vdict d | none => .vnone)]))
        | none => .ok none

/-! ## The spec-side correlation rule for claim C8 -/

/-- Spec-side equality on tool_use identifier values (string ids). -/
def idEq (a b : PyVal) : Bool :=
  match a, b with
  | .vstr x, .vstr y => decide (x = y)
  | .vnone, .vnone => true
  | _, _ => false

/-- All tool_use_ids already resolved by a tool_result block somewhere in the
trajectory. -/
def collectToolResultIds : List PyVal → List PyVal
  | [] => []
  | .vdict d :: rest =>
      (match pyGetD d "message" (.vdict []) with
       | .vdict m =>
           (match pyGetD m "content" (.vlist []) with
            | .vlist xs => xs.filterMap (fun b =>
                match b with
                | .vdict bb =>
                    if isStr (pyGetD bb "type" .vnone) "tool_result"
                    then some (pyGetD bb "tool_use_id" .vnone)
                    else none
                | _ => none)
            | _ => [])
       | _ => []) ++ collectToolResultIds rest
  | _ :: rest => collectToolResultIds rest

/-- Follows the spec text of claim C8, for comparison with
`find_last_tool_use_id_for_cell`: walk the trajectory backward and return the
most recent tool_use block of the expected name that no tool_result in the
trajectory has resolved; within one entry, later blocks are more recent. -/
def spec_most_recent_unresolved (trajectory : List PyVal) (name : String) : Option PyVal :=
  go trajectory.reverse (collectToolResultIds trajectory)
where
  scanBlocks : List PyVal → List PyVal → Option PyVal
  | [], _ => none
  | .vdict b :: rest, resolved =>
      if isStr (pyGetD b "type" .vnone) "tool_use" &&
         isStr (pyGetD b "name" .vnone) "create_cell" &&
         !(resolved.any (fun r => idEq r (pyGetD b "id" .vnone)))
      then some (pyGetD b "id" .vnone)
      else scanBlocks rest resolved
  | _ :: rest, resolved => scanBlocks rest resolved
  go : List PyVal → List PyVal → Option PyVal
  | [], _ => none
  | .vdict d :: rest, resolved =>
      if isStr (pyGetD d "type" .vnone) "assistant" then
        match scanBlocks (match pyGetD d "message" (.vdict []) with
                          | .vdict m =>
                              (match pyGetD m "content" (.vlist []) with
                               | .vlist xs => xs.reverse
                               | _ => [])
                          | _ => []) resolved with
        | some i => some i
        | none => go rest resolved
      else go rest resolved
  | _ :: rest, resolved => go rest resolved

/-! ## Theorems for claims C3, C10, C8 and C4 -/

set_option maxHeartbeats 1000000 in
/-- Claim C3 (refuted — code bug): `EvalServer.run_eval` has no per-eval
wall-clock timeout at all: however many polling iterations pass without
completion or task termination, the wait loop is still waiting; no
`TimedOutError` marker exists anywhere in the code, and `Eval.timeout` is
declared but never read. -/
theorem c3_no_timeout (n : Nat) :
    evalWaitLoop (List.replicate n ⟨false, false, false⟩) = .stillWaiting := by
  induction n with
  | zero => rfl
  | succ k ih => simpa [List.replicate, evalWaitLoop] using ih

/-- Counterexample to claim C10: a stream delta with negative `block_index`
-1 while no block is open raises IndexError (Python negative indexing passes
the `block_index < len` guard), so processing a delta signal can raise. -/
theorem c10_counterexample :
    processFrame (fun _ => none) {} (.agent_stream_delta (-1) "x") =
      .error "IndexError: list index out of range" := by
  rfl

set_option maxHeartbeats 400000 in
/-- Claim C10 (amended): a delta whose block_index is ≥ the number of opened
blocks is silently discarded, and any delta with a nonnegative block_index
never raises and preserves the block count, the conversation and the
trajectory (negative indices follow Python semantics and can raise, see the
counterexample). -/
theorem c10_delta_amended (jl : String → Option PyVal) (st : HState) (i : Int)
    (d : String) (hge : (st.current_streaming_blocks.length : Int) ≤ i)
    (j : Int) (hj : 0 ≤ j) :
    processFrame jl st (.agent_stream_delta i d) = .ok st ∧
    (∃ st', processFrame jl st (.agent_stream_delta j d) = .ok st' ∧
      st'.current_streaming_blocks.length = st.current_streaming_blocks.length ∧
      st'.conversation_history = st.conversation_history ∧
      st'.trajectory = st.trajectory) := by
  constructor
  · simp only [processFrame]
    rw [if_neg (by omega)]
  · by_cases hlt : j < (st.current_streaming_blocks.length : Int)
    · have hj' : j.toNat < st.current_streaming_blocks.length := by omega
      have hpy : pyIdx j st.current_streaming_blocks.length = j := by
        unfold pyIdx
        rw [if_neg (by omega)]
      have hb : st.current_streaming_blocks.get? j.toNat =
          some (st.current_streaming_blocks.get ⟨j.toNat, hj'⟩) := List.get?_eq_get hj'
      refine ⟨{ st with current_streaming_blocks := pyListSet st.current_streaming_blocks j (applyDelta d (st.current_streaming_blocks.get ⟨j.toNat, hj'⟩)) }, ?_, by simp [pyListSet], rfl, rfl⟩
      simp only [processFrame]
      rw [if_pos hlt]
      simp only [pyListGet, hpy]
      rw [if_pos hj, hb]
      rfl
    · refine ⟨st, ?_, rfl, rfl, rfl⟩
      simp only [processFrame]
      rw [if_neg hlt]

/-- Witness for the amended claim C10 at a one-block state, indices 5 and 0. -/
theorem c10_delta_amended_witness :
    processFrame (fun _ => none)
      { current_streaming_blocks := [CBlock.text "hi"] }
      (.agent_stream_delta 5 "x") =
      .ok { current_streaming_blocks := [CBlock.text "hi"] } ∧
    (∃ st', processFrame (fun _ => none)
        { current_streaming_blocks := [CBlock.text "hi"] }
        (.agent_stream_delta 0 "x") = .ok st' ∧
      st'.current_streaming_blocks.length =
        ({ current_streaming_blocks := [CBlock.text "hi"] } : HState).current_streaming_blocks.length ∧
      st'.conversation_history =
        ({ current_streaming_blocks := [CBlock.text "hi"] } : HState).conversation_history ∧
      st'.trajectory = ({ current_streaming_blocks := [CBlock.text "hi"] } : HState).trajectory) :=
  c10_delta_amended (fun _ => none) { current_streaming_blocks := [CBlock.text "hi"] }
    5 "x" (by norm_num) 0 (by norm_num)

/-- The trajectory of the C8 counterexample: one assistant entry holding two
`create_cell` tool_use blocks t1 (older) then t2 (newer), followed by a
tool_result that resolves t1. -/
def trajC8 : List PyVal :=
  [.vdict [("type", .vstr "assistant"),
           ("message", .vdict [("role", .vstr "assistant"),
              ("content", .vlist
                [.vdict [("type", .vstr "tool_use"), ("id", .vstr "t1"),
                         ("name", .vstr "create_cell"), ("input", .vdict [])],
                 .vdict [("type", .vstr "tool_use"), ("id", .vstr "t2"),
                         ("name", .vstr "create_cell"), ("input", .vdict [])]])])],
   .vdict [("type", .vstr "user"),
           ("message", .vdict [("role", .vstr "user"),
              ("content", .vlist [.vdict [("type", .vstr "tool_result"),
                 ("tool_use_id", .vstr "t1"), ("content", .vstr "ok"),
                 ("is_error", .vbool false)]])])]]

/-- Counterexample to claim C8: with t1 already resolved by a tool_result and
t2 unresolved, the spec-side rule picks t2, but
`find_last_tool_use_id_for_cell` returns t1 — it ignores resolution state
(and the cell identifier) and takes the FIRST `create_cell` block of the most
recent assistant entry. -/
theorem c8_counterexample :
    find_last_tool_use_id_for_cell trajC8 "cell-42" = .ok (.vstr "t1") ∧
    spec_most_recent_unresolved trajC8 "create_cell" = some (.vstr "t2") ∧
    ¬ (find_last_tool_use_id_for_cell trajC8 "cell-42" = .ok (.vstr "t2")) := by
  refine ⟨rfl, rfl, ?_⟩
  intro h
  have h1 : find_last_tool_use_id_for_cell trajC8 "cell-42" = .ok (.vstr "t1") := rfl
  rw [h1] at h
  injection h with h2
  injection h2 with h3
  exact absurd h3 (by decide)

set_option maxHeartbeats 400000 in
/-- Claim C8 (amended): the correlation step never reads the incoming cell
identifier — the lookup result is the same for any two cell ids — and when
the lookup yields a truthy tool_use id, the kernel cell_result frame appends
a tool_result trajectory entry for that id, tagged as error iff the cell
result carried an exception. -/
theorem c8_attach_amended (jl : String → Option PyVal) (st : HState) (cid : String)
    (hex : Bool) (logs : String) (exc tid : PyVal) (c₁ c₂ : String)
    (hfind : find_last_tool_use_id_for_cell st.trajectory cid = .ok tid)
    (htid : pyTruthy tid = true) :
    find_last_tool_use_id_for_cell st.trajectory c₁ =
      find_last_tool_use_id_for_cell st.trajectory c₂ ∧
    processFrame jl st (.kernel_cell_result cid hex logs exc) =
      .ok (add_tool_result_to_trajectory st tid
        (if hex && pyTruthy exc then "Exception: " ++ pyStr exc ++ "\n" ++ logs
         else if logs = "" then "Cell executed successfully" else logs)
        hex (some cid)) := by
  refine ⟨rfl, ?_⟩
  simp [processFrame, hfind, htid]

/-- Witness for the amended claim C8 on the counterexample trajectory. -/
theorem c8_attach_amended_witness :
    find_last_tool_use_id_for_cell ({ trajectory := trajC8 } : HState).trajectory "a" =
      find_last_tool_use_id_for_cell ({ trajectory := trajC8 } : HState).trajectory "b" ∧
    processFrame (fun _ => none) { trajectory := trajC8 }
      (.kernel_cell_result "cell-42" true "boom" .vnone) =
      .ok (add_tool_result_to_trajectory { trajectory := trajC8 } (.vstr "t1")
        (if true && pyTruthy (.vnone : PyVal) then
          "Exception: " ++ pyStr (.vnone : PyVal) ++ "\n" ++ "boom"
         else if "boom" = "" then "Cell executed successfully" else "boom")
        true (some "cell-42")) :=
  c8_attach_amended (fun _ => none) { trajectory := trajC8 } "cell-42" true "boom"
    .vnone (.vstr "t1") "a" "b" rfl rfl

/-- The conversation of the C4 counterexample: a single assistant message
with no EVAL_ANSWER sentinel anywhere. -/
def histC4 : List PyVal :=
  [.vdict [("role", .vstr "assistant"),
           ("content", .vlist [.vdict [("type", .vstr "text"),
              ("text", .vstr "no answer here")]])]]

/-- Counterexample to claim C4: when no sentinel tag appears, the extractor
returns none and the stored grader dict is exactly
`no_answer_grader_result`, which has passed = false and the fixed reasoning
string but NO "score" key at all — not the score = 0 the claim asserts. -/
theorem c4_counterexample :
    extract_answer_from_conversation (fun _ => none) histC4 = none ∧
    run_eval_grading (fun _ => none) (some [("type", .vstr "numeric_tolerance")])
      (extract_answer_from_conversation (fun _ => none) histC4) =
      .ok (some (.vdict no_answer_grader_result)) ∧
    pyGet no_answer_grader_result "score" = none ∧
    ¬ (pyGet no_answer_grader_result "score" = some (.vnum (.fin 0))) := by
  refine ⟨rfl, rfl, rfl, ?_⟩
  intro h
  simp [no_answer_grader_result, pyGet] at h

/-- Claim C4 (amended): whenever answer extraction yields no answer and the
eval case declares a (nonempty) grader, grading is short-circuited without
raising: the stored grader dict has passed = false and the fixed reasoning
"Failed to extract answer from conversation history", and carries no score
key (rather than score = 0). -/
theorem c4_no_answer_amended
    (jl : String → Option PyVal)
    (registry : String → Option (PyDict → PyDict → Except String GraderResult))
    (g : PyDict) (hist : List PyVal)
    (hg : g.isEmpty = false)
    (hext : extract_answer_from_conversation jl hist = none) :
    run_eval_grading registry (some g) (extract_answer_from_conversation jl hist) =
      .ok (some (.vdict no_answer_grader_result)) ∧
    pyGet no_answer_grader_result "passed" = some (.vbool false) ∧
    pyGet no_answer_grader_result "reasoning" =
      some (.vstr "Failed to extract answer from conversation history") ∧
    pyGet no_answer_grader_result "score" = none := by
  refine ⟨?_, rfl, rfl, rfl⟩
  rw [hext]
  simp [run_eval_grading, hg]

/-- Witness for the amended claim C4 on the concrete no-sentinel
conversation. -/
theorem c4_no_answer_amended_witness :
    run_eval_grading (fun _ => none) (some [("type", .vstr "numeric_tolerance")])
      (extract_answer_from_conversation (fun _ => none) histC4) =
      .ok (some (.vdict no_answer_grader_result)) ∧
    pyGet no_answer_grader_result "passed" = some (.vbool false) ∧
    pyGet no_answer_grader_result "reasoning" =
      some (.vstr "Failed to extract answer from conversation history") ∧
    pyGet no_answer_grader_result "score" = none :=
  c4_no_answer_amended (fun _ => none) (fun _ => none)
    [("type", .vstr "numeric_tolerance")] histC4 rfl rfl

/-! ## Theorems for claims C9 and C2 -/

theorem processFrame_delta_single (jl : String → Option PyVal) (st : HState)
    (id name inp : PyVal) (raw : Option String) (d : String)
    (h : st.current_streaming_blocks = [.toolUse id name inp raw]) :
    processFrame jl st (.agent_stream_delta 0 d) =
      .ok { st with current_streaming_blocks :=
        [.toolUse id name inp (some (raw.getD "" ++ d))] } := by
  simp only [processFrame, h]
  norm_num [pyListGet, pyIdx, pyListSet, applyDelta]

theorem processFrames_deltas (jl : String → Option PyVal) (ds : List String) :
    ∀ (st : HState) (id name inp : PyVal) (acc : String),
    st.current_streaming_blocks = [.toolUse id name inp (some acc)] →
    processFrames jl st (ds.map (HMsg.agent_stream_delta 0 ·)) =
      .ok { st with current_streaming_blocks :=
        [.toolUse id name inp (some (ds.foldl (· ++ ·) acc))] } := by
  induction ds with
  | nil =>
    intro st id name inp acc h
    simp only [List.map_nil, processFrames, List.foldl_nil]
    rw [← h]
  | cons d rest ih =>
    intro st id name inp acc h
    simp only [List.map_cons, processFrames]
    rw [processFrame_delta_single jl st id name inp (some acc) d h]
    simp only [except_bind_ok, Option.getD_some]
    rw [ih _ id name inp (acc ++ d) rfl]
    rfl

theorem processFrames_append (jl : String → Option PyVal) (xs ys : List HMsg) :
    ∀ st : HState,
    processFrames jl st (xs ++ ys) =
      (processFrames jl st xs) >>= (fun st₁ => processFrames jl st₁ ys) := by
  induction xs with
  | nil => intro st; simp [processFrames]
  | cons f fr ih =>
    intro st
    simp only [List.cons_append, processFrames]
    cases hpf : processFrame jl st f with
    | error e => simp
    | ok st₁ => simp only [except_bind_ok]; exact ih st₁

theorem stream_complete_finalize (jl : String → Option PyVal) (st : HState)
    (m : PyDict) (id name inp : PyVal) (raw : String)
    (hmsg : st.current_streaming_message = some m)
    (hblocks : st.current_streaming_blocks = [.toolUse id name inp (some raw)]) :
    processFrame jl st .agent_stream_complete = .ok
      { st with
          conversation_history := st.conversation_history ++
            [.vdict (pySet m "content" (.vlist
              [cblockToVal (.toolUse id name ((jl raw).getD (.vdict [])) none)]))],
          trajectory := st.trajectory ++ [.vdict
            [("type", .vstr "assistant"),
             ("message", .vdict [("role", .vstr "assistant"),
                ("content", .vlist
                  [cblockToVal (.toolUse id name ((jl raw).getD (.vdict [])) none)])]),
             ("turn", .vnum (.fin ((st.turn_number + 1 : Nat) : ℚ))),
             ("usage", st.current_usage)]],
          turn_number := st.turn_number + 1,
          current_usage := .vnone,
          current_streaming_message := none,
          current_streaming_blocks := [] } := by
  simp only [processFrame, hmsg, hblocks]
  simp [finalizeBlock, add_assistant_to_trajectory]

set_option maxHeartbeats 1000000 in
/-- Claim C9: during streaming, a delta addressed to a tool_use block only
appends to its raw-input accumulator and never touches the structured input;
on turn-complete the accumulated raw input is parsed as JSON into the
block's structured input (an empty object substituted when parsing fails)
and the finalized message is appended both to the conversation and to the
trajectory. -/
theorem c9_stream_turn_complete (jl : String → Option PyVal) (st : HState)
    (m : PyDict) (id name inp : PyVal) (d0 : String) (ds : List String)
    (hmsg : st.current_streaming_message = some m)
    (hblocks : st.current_streaming_blocks = [.toolUse id name inp none])
    (hds : ds ≠ []) :
    processFrame jl st (.agent_stream_delta 0 d0) =
      .ok { st with current_streaming_blocks :=
        [.toolUse id name inp (some ("" ++ d0))] } ∧
    processFrames jl st
        (ds.map (HMsg.agent_stream_delta 0 ·) ++ [.agent_stream_complete]) =
      .ok { st with
          conversation_history := st.conversation_history ++
            [.vdict (pySet m "content" (.vlist
              [cblockToVal (.toolUse id name
                ((jl (ds.foldl (· ++ ·) "")).getD (.vdict [])) none)]))],
          trajectory := st.trajectory ++ [.vdict
            [("type", .vstr "assistant"),
             ("message", .vdict [("role", .vstr "assistant"),
                ("content", .vlist
                  [cblockToVal (.toolUse id name
                    ((jl (ds.foldl (· ++ ·) "")).getD (.vdict [])) none)])]),
             ("turn", .vnum (.fin ((st.turn_number + 1 : Nat) : ℚ))),
             ("usage", st.current_usage)]],
          turn_number := st.turn_number + 1,
          current_usage := .vnone,
          current_streaming_message := none,
          current_streaming_blocks := [] } := by
  constructor
  · exact processFrame_delta_single jl st id name inp none d0 hblocks
  · obtain ⟨d, rest, rfl⟩ : ∃ d rest, ds = d :: rest := by
      cases ds with
      | nil => exact absurd rfl hds
      | cons d rest => exact ⟨d, rest, rfl⟩
    rw [processFrames_append]
    simp only [List.map_cons, processFrames]
    rw [processFrame_delta_single jl st id name inp none d hblocks]
    simp only [except_bind_ok, Option.getD_none]
    rw [processFrames_deltas jl rest _ id name inp ("" ++ d) rfl]
    simp only [except_bind_ok]
    rw [stream_complete_finalize jl
      { st with current_streaming_blocks :=
          [CBlock.toolUse id name inp (some (rest.foldl (· ++ ·) ("" ++ d)))] }
      m id name inp (rest.foldl (· ++ ·) ("" ++ d)) hmsg rfl]
    simp only [except_bind_ok, List.foldl_cons]

/-- Witness for claim C9: a tool_use block streamed in two delta chunks, with
a json.loads model that parses their concatenation. -/
theorem c9_stream_turn_complete_witness :
    processFrame (fun s => if s = "ab" then some (.vdict [("x", .vnum (.fin 1))]) else none)
      { current_streaming_message := some
          [("type", .vstr "anthropic_message"), ("role", .vstr "assistant"),
           ("content", .vlist [])],
        current_streaming_blocks :=
          [.toolUse (.vstr "t1") (.vstr "submit_response") (.vdict []) none] }
      (.agent_stream_delta 0 "a") =
      .ok { current_streaming_message := some
              [("type", .vstr "anthropic_message"), ("role", .vstr "assistant"),
               ("content", .vlist [])],
            current_streaming_blocks :=
              [.toolUse (.vstr "t1") (.vstr "submit_response") (.vdict [])
                (some ("" ++ "a"))] } ∧
    processFrames (fun s => if s = "ab" then some (.vdict [("x", .vnum (.fin 1))]) else none)
      { current_streaming_message := some
          [("type", .vstr "anthropic_message"), ("role", .vstr "assistant"),
           ("content", .vlist [])],
        current_streaming_blocks :=
          [.toolUse (.vstr "t1") (.vstr "submit_response") (.vdict []) none] }
      ((["a", "b"].map (HMsg.agent_stream_delta 0 ·)) ++ [.agent_stream_complete]) =
      .ok { conversation_history := [.vdict (pySet
              [("type", .vstr "anthropic_message"), ("role", .vstr "assistant"),
               ("content", .vlist [])] "content" (.vlist
              [cblockToVal (.toolUse (.vstr "t1") (.vstr "submit_response")
                (((fun s => if s = "ab" then some (.vdict [("x", .vnum (.fin 1))]) else none)
                    (["a", "b"].foldl (· ++ ·) "")).getD (.vdict [])) none)]))],
            trajectory := [.vdict
              [("type", .vstr "assistant"),
               ("message", .vdict [("role", .vstr "assistant"),
                  ("content", .vlist
                    [cblockToVal (.toolUse (.vstr "t1") (.vstr "submit_response")
                      (((fun s => if s = "ab" then some (.vdict [("x", .vnum (.fin 1))]) else none)
                          (["a", "b"].foldl (· ++ ·) "")).getD (.vdict [])) none)])]),
               ("turn", .vnum (.fin ((0 + 1 : Nat) : ℚ))),
               ("usage", .vnone)]],
            turn_number := 0 + 1,
            current_usage := .vnone,
            current_streaming_message := none,
            current_streaming_blocks := [] } :=
  c9_stream_turn_complete
    (fun s => if s = "ab" then some (.vdict [("x", .vnum (.fin 1))]) else none)
    { current_streaming_message := some
        [("type", .vstr "anthropic_message"), ("role", .vstr "assistant"),
         ("content", .vlist [])],
      current_streaming_blocks :=
        [.toolUse (.vstr "t1") (.vstr "submit_response") (.vdict []) none] }
    [("type", .vstr "anthropic_message"), ("role", .vstr "assistant"),
     ("content", .vlist [])]
    (.vstr "t1") (.vstr "submit_response") (.vdict []) "a" ["a", "b"]
    rfl rfl (by simp)

theorem processFrame_eval_complete (jl : String → Option PyVal) (st st₁ : HState)
    (f : HMsg) (h : processFrame jl st f = .ok st₁) :
    st₁.eval_complete = st.eval_complete := by
  cases f <;>
    simp only [processFrame, Except.map, bind, Except.bind,
      add_assistant_to_trajectory, add_tool_result_to_trajectory] at h <;>
    (try repeat' split at h) <;>
    first
      | (rw [Except.ok.injEq] at h; rw [← h])
      | simp at h

theorem run_eval_loop_fires (jl : String → Option PyVal) : ∀ (frames : List HMsg)
    (st : HState) (fires : Nat) (st' : HState) (n : Nat) (rest : List HMsg),
    run_eval_loop jl frames st fires = .ok (st', n, rest) →
    n ≤ fires + 1 ∧
    (st.eval_complete = true → st' = st ∧ n = fires ∧ rest = frames) ∧
    (st.eval_complete = false → st'.eval_complete = true → n = fires + 1) := by
  intro frames
  induction frames with
  | nil =>
    intro st fires st' n rest h
    simp only [run_eval_loop, Except.ok.injEq, Prod.mk.injEq] at h
    obtain ⟨h1, h2, h3⟩ := h
    subst h1; subst h2; subst h3
    refine ⟨by omega, fun _ => ⟨rfl, rfl, rfl⟩, fun h4 h5 => ?_⟩
    rw [h4] at h5
    exact absurd h5 (by simp)
  | cons f fr ih =>
    intro st fires st' n rest h
    simp only [run_eval_loop] at h
    by_cases hc : st.eval_complete
    · rw [if_pos hc] at h
      simp only [Except.ok.injEq, Prod.mk.injEq] at h
      obtain ⟨h1, h2, h3⟩ := h
      subst h1; subst h2; subst h3
      exact ⟨by omega, fun _ => ⟨rfl, rfl, rfl⟩, fun h4 _ => absurd hc (by rw [h4]; simp)⟩
    · rw [if_neg hc] at h
      rcases hpf : processFrame jl st f with e | st₁ <;> rw [hpf] at h
      · simp at h
      · simp only [except_bind_ok] at h
        have hec : st₁.eval_complete = st.eval_complete :=
          processFrame_eval_complete jl st st₁ f hpf
        rcases f with _ | _ | _ | _ | _ | _ | _ | _ | e | _ | _ <;>
          simp only [isCompletionFrame] at h <;>
          try
            (refine ⟨(ih st₁ fires st' n rest h).1, fun hcc => absurd hcc hc, fun _ hdone => ?_⟩
             exact (ih st₁ fires st' n rest h).2.2 (by rw [hec]; simpa using hc) hdone)
        -- remaining goals: agent_stream_complete, agent_history_updated, agent_error
        all_goals try simp at h
        -- the two completion-frame cases
        all_goals
          (rcases hchk : check_for_completion st₁.conversation_history with ce | c <;>
             rw [hchk] at h <;>
             try exact Except.noConfusion h)
        all_goals simp only [except_bind_ok] at h
        all_goals cases c
        all_goals first
          | (have h2 := (ih _ _ st' n rest h).2.1 rfl
             have h3 : n = fires + 1 := by simpa using h2.2.1
             exact ⟨by omega, fun hcc => absurd hcc hc, fun _ _ => by omega⟩)
          | (have h1 : n ≤ fires + 1 := by simpa using (ih _ _ st' n rest h).1
             refine ⟨h1, fun hcc => absurd hcc hc, fun _ hdone => ?_⟩
             have h4 := (ih _ _ st' n rest h).2.2 rfl hdone
             simpa using h4)

theorem run_eval_loop_append (jl : String → Option PyVal) : ∀ (frames extra : List HMsg)
    (st : HState) (fires : Nat) (st' : HState) (n : Nat),
    run_eval_loop jl frames st fires = .ok (st', n, []) →
    st'.eval_complete = true →
    run_eval_loop jl (frames ++ extra) st fires = .ok (st', n, extra) := by
  intro frames
  induction frames with
  | nil =>
    intro extra st fires st' n h hdone
    simp only [run_eval_loop, Except.ok.injEq, Prod.mk.injEq] at h
    obtain ⟨h1, h2, _⟩ := h
    subst h1; subst h2
    cases extra with
    | nil => simp [run_eval_loop]
    | cons e es =>
      simp only [List.nil_append, run_eval_loop]
      rw [if_pos hdone]
  | cons f fr ih =>
    intro extra st fires st' n h hdone
    simp only [List.cons_append, run_eval_loop] at h ⊢
    by_cases hc : st.eval_complete
    · rw [if_pos hc] at h
      simp at h
    · rw [if_neg hc] at h ⊢
      rcases hpf : processFrame jl st f with e | st₁
      · rw [hpf] at h
        simp only [except_bind_error] at h
        exact Except.noConfusion h
      · rw [hpf] at h
        simp only [except_bind_ok] at h ⊢
        rcases f with _ | _ | _ | _ | _ | _ | _ | _ | e | _ | _ <;>
          try exact ih extra st₁ fires st' n h hdone
        all_goals try exact Except.noConfusion h
        all_goals
          (rcases hchk : check_for_completion st₁.conversation_history with ce | c <;>
             rw [hchk] at h <;>
             simp only [except_bind_error, except_bind_ok] at h <;>
             try exact Except.noConfusion h)
        all_goals simp only [except_bind_ok]
        all_goals exact ih extra _ _ st' n h hdone

/-- Claim C2: completion fires exactly once per case.  When a run of the
receive loop consumes its frames and exits with the completion flag set, the
predicate fired exactly once, and re-running on the same frames followed by
any further frames (for example three `agent_history_updated` notifications
after the terminal tool call) exits at the same point with the same single
fire, leaving the extra frames unconsumed. -/
theorem c2_completion_fires_once (jl : String → Option PyVal)
    (frames extra : List HMsg) (st st' : HState) (n : Nat)
    (hstart : st.eval_complete = false)
    (hrun : run_eval_loop jl frames st 0 = .ok (st', n, []))
    (hdone : st'.eval_complete = true) :
    n = 1 ∧
    run_eval_loop jl (frames ++ extra) st 0 = .ok (st', n, extra) := by
  refine ⟨?_, run_eval_loop_append jl frames extra st 0 st' n hrun hdone⟩
  exact (run_eval_loop_fires jl frames st 0 st' n [] hrun).2.2 hstart hdone

/-- Witness for claim C2: an assistant message carrying a terminal
`submit_response` tool call, detected after one `agent_history_updated`
frame; three further `agent_history_updated` frames stay unconsumed. -/
theorem c2_completion_fires_once_witness :
    (1 = 1 ∧
     run_eval_loop (fun _ => none)
       ([.anthropic_message
           [("role", .vstr "assistant"),
            ("content", .vlist [.vdict
              [("type", .vstr "tool_use"), ("name", .vstr "submit_response"),
               ("input", .vdict [("next_status", .vstr "done")])]])],
         .agent_history_updated] ++
        [.agent_history_updated, .agent_history_updated, .agent_history_updated])
       {} 0 =
       .ok ({ conversation_history := [.vdict
                (("type", .vstr "anthropic_message") ::
                 [("role", .vstr "assistant"),
                  ("content", .vlist [.vdict
                    [("type", .vstr "tool_use"), ("name", .vstr "submit_response"),
                     ("input", .vdict [("next_status", .vstr "done")])]])])],
              eval_complete := true }, 1,
             [.agent_history_updated, .agent_history_updated, .agent_history_updated])) :=
  c2_completion_fires_once (fun _ => none)
    [.anthropic_message
       [("role", .vstr "assistant"),
        ("content", .vlist [.vdict
          [("type", .vstr "tool_use"), ("name", .vstr "submit_response"),
           ("input", .vdict [("next_status", .vstr "done")])]])],
     .agent_history_updated]
    [.agent_history_updated, .agent_history_updated, .agent_history_updated]
    {} _ 1 rfl (by rfl) rfl
